import Mathlib

/-!
Verification development for the Telegram ↔ OpenAI relay worker
(`src/index.ts`, a Cloudflare Worker).  The worker's `fetch` entry point,
its inline helpers (`sendTelegramText`, `loadUserSettings`,
`saveUserSettings`, `toneSystemInstruction`, `invokeOpenAI`) and the
message-processing pipeline are embedded shallowly below.  External
collaborators (the KV store, the HTTP fetches to Telegram and OpenAI,
the system clock) are modelled as explicit parameters / oracles; the
observable interactions with them are collected in an effect trace.

JavaScript dynamic values are modelled by `JVal`.  The JS `undefined`
value is collapsed into `jnull`: every operation this program performs
on `null` / `undefined` (truthiness, `typeof` checks, `??`, `!= null`,
optional chaining, template interpolation in the positions used here)
treats the two identically, so the collapse is observation-equivalent
for this source.
-/

/-- Model of JavaScript/JSON dynamic values (with `undefined` collapsed
into `jnull`, see module comment).  JSON numbers are carried as integers;
the only numbers this program ever consumes are integer chat ids, integer
token counts and integer quota counters (fractional literals parsed from
the store are discarded by the settings validator either way). -/
inductive JVal where
  | jnull
  | jbool (b : Bool)
  | jnum (n : Int)
  | jstr (s : String)
  | jarr (elems : List JVal)
  | jobj (fields : List (String × JVal))

/-- JavaScript truthiness. -/
def jsTruthy : JVal → Bool
  | .jnull => false
  | .jbool b => b
  | .jnum n => n != 0
  | .jstr s => s != ""
  | .jarr _ => true
  | .jobj _ => true

/-- Is the value `null`/`undefined` (JS loose `== null`)? -/
def JVal.isNullish : JVal → Bool
  | .jnull => true
  | _ => false

/-- Property access `v.k` (and `v?.k`): `jnull` for non-objects and for
missing fields; for duplicate keys the last occurrence wins, matching
`JSON.parse` / object-literal overwrite semantics. -/
def jGet (v : JVal) (k : String) : JVal :=
  match v with
  | .jobj fs => ((((fs.filter (fun p => p.1 == k)).getLast?).map (fun p => p.2)).getD .jnull)
  | _ => .jnull

/-- Field names of an object value (empty for non-objects). -/
def jFields : JVal → List String
  | .jobj fs => fs.map (fun p => p.1)
  | _ => []

/-- Index access `v?.[0]` as used on `data?.output?.[0]`. -/
def jsIndex0 : JVal → JVal
  | .jarr xs => xs.getD 0 .jnull
  | .jstr s =>
    match s.toList with
    | c :: _ => .jstr (String.mk [c])
    | [] => .jnull
  | .jobj fs => jGet (.jobj fs) "0"
  | _ => .jnull

/-- JS `a ?? b` (with `undefined` collapsed into `jnull`). -/
def jsNullish (a b : JVal) : JVal :=
  if a.isNullish then b else a

mutual
/-- JS string coercion (template literals, `String(v)`), as far as the
shapes this program can feed it are concerned. -/
def jsToStr : JVal → String
  | .jnull => "null"
  | .jbool b => cond b "true" "false"
  | .jnum n => toString n
  | .jstr s => s
  | .jarr xs => jsToStrElems xs
  | .jobj _ => "[object Object]"

/-- JS array-to-string: elements joined by `,`, nullish elements empty. -/
def jsToStrElems : List JVal → String
  | [] => ""
  | [x] => if x.isNullish then "" else jsToStr x
  | x :: xs => (if x.isNullish then "" else jsToStr x) ++ "," ++ jsToStrElems xs
end

/-- JS `+` restricted to the operand shapes reachable here: two numbers
add; any string-like operand concatenates string coercions (the code only
adds the two optional token counts after a `!= null` guard). -/
def jsPlus (a b : JVal) : JVal :=
  match a, b with
  | .jnum m, .jnum n => .jnum (m + n)
  | _, _ => .jstr (jsToStr a ++ jsToStr b)

/-- JS `s1 || s2` on an optional string config value (`env.X || "default"`):
the default is used when the variable is unset or the empty string. -/
def jsOrString (v : Option String) (d : String) : String :=
  match v with
  | some s => if s = "" then d else s
  | none => d

/-- Whitespace for the JS `trim` / `\s` model (the ASCII whitespace
subset; JS additionally treats rarer Unicode space characters as
whitespace, which no command or tone literal contains). -/
def jsWsChar (c : Char) : Bool :=
  c = ' ' ∨ c = '\t' ∨ c = '\n' ∨ c = '\r' ∨ c = Char.ofNat 11 ∨ c = Char.ofNat 12

/-- JS `String.prototype.trim`. -/
def jsTrim (s : String) : String :=
  String.mk (((s.toList.dropWhile jsWsChar).reverse.dropWhile jsWsChar).reverse)

/-- JS `String.prototype.startsWith`. -/
def strStartsWith (s pre : String) : Bool :=
  pre.toList.isPrefixOf s.toList

/-- ASCII lowercasing of one character. -/
def asciiLower (c : Char) : Char :=
  if 'A' ≤ c ∧ c ≤ 'Z' then Char.ofNat (c.toNat + 32) else c

/-- JS `String.prototype.toLowerCase` (ASCII part; the uppercase forms of
the three tone literals are ASCII, and any other argument fails the
closed-set check under either semantics). -/
def strToLower (s : String) : String :=
  String.mk (s.toList.map asciiLower)

/-! ### JSON codec (the platform's `JSON.parse` / `JSON.stringify`)

The worker relies on the runtime's JSON codec in three places: parsing the
stored user-settings entry, serialising settings back, and serialising the
debug echo.  The codec below is a faithful executable model of the JSON
grammar with two harmless deviations, both confined to corners the program
discards anyway: fractional / exponent number literals are consumed but
their value truncated to the integer mantissa (every number-valued parse
is rejected by the settings validator exactly like a parse failure would
be), and surrogate-pair `\uXXXX` escapes are not recombined. -/

/-- Opening brace character. -/
def lbraceChar : Char := Char.ofNat 123

/-- Closing brace character. -/
def rbraceChar : Char := Char.ofNat 125

/-- Skip JSON insignificant whitespace. -/
def skipWs : List Char → List Char
  | [] => []
  | c :: cs => if c = ' ' ∨ c = '\t' ∨ c = '\n' ∨ c = '\r' then skipWs cs else c :: cs

/-- Hexadecimal digit value. -/
def hexVal (c : Char) : Option Nat :=
  if '0' ≤ c ∧ c ≤ '9' then some (c.toNat - '0'.toNat)
  else if 'a' ≤ c ∧ c ≤ 'f' then some (c.toNat - 'a'.toNat + 10)
  else if 'A' ≤ c ∧ c ≤ 'F' then some (c.toNat - 'A'.toNat + 10)
  else none

/-- Single-character JSON string escapes. -/
def escChar : Char → Option Char
  | '"' => some '"'
  | '\\' => some '\\'
  | '/' => some '/'
  | 'b' => some (Char.ofNat 8)
  | 'f' => some (Char.ofNat 12)
  | 'n' => some '\n'
  | 'r' => some '\r'
  | 't' => some '\t'
  | _ => none

/-- JSON string body parser (after the opening quote).  `acc` collects
characters in reverse. -/
def parseJStringAux : Nat → List Char → List Char → Option (String × List Char)
  | 0, _, _ => none
  | fuel + 1, acc, cs =>
    match cs with
    | [] => none
    | '"' :: rest => some (String.mk acc.reverse, rest)
    | '\\' :: rest =>
      (match rest with
       | 'u' :: h1 :: h2 :: h3 :: h4 :: rest2 =>
         match hexVal h1, hexVal h2, hexVal h3, hexVal h4 with
         | some a, some b, some c, some d =>
           parseJStringAux fuel (Char.ofNat (((a * 16 + b) * 16 + c) * 16 + d) :: acc) rest2
         | _, _, _, _ => none
       | e :: rest2 =>
         match escChar e with
         | some c => parseJStringAux fuel (c :: acc) rest2
         | none => none
       | [] => none)
    | c :: rest => if c.toNat < 32 then none else parseJStringAux fuel (c :: acc) rest

/-- Decimal digit run: returns (value, digit count, rest). -/
def digitsRun : List Char → Nat → Nat → Nat × Nat × List Char
  | [], v, n => (v, n, [])
  | c :: cs, v, n =>
    if '0' ≤ c ∧ c ≤ '9' then digitsRun cs (v * 10 + (c.toNat - 48)) (n + 1)
    else (v, n, c :: cs)

/-- Characters that may continue a number token (fraction / exponent). -/
def numTailChar (c : Char) : Bool :=
  ('0' ≤ c ∧ c ≤ '9') ∨ c = '.' ∨ c = 'e' ∨ c = 'E' ∨ c = '+' ∨ c = '-'

/-- Drop the fraction/exponent tail of a number token (value truncated,
see section comment). -/
def dropNumTail : List Char → List Char
  | [] => []
  | c :: cs => if numTailChar c then dropNumTail cs else c :: cs

/-- JSON number token (input starts with `-` or a digit). -/
def parseJNumber (cs : List Char) : Option (JVal × List Char) :=
  let p := match cs with
    | '-' :: r => (true, r)
    | _ => (false, cs)
  let d := digitsRun p.2 0 0
  if d.2.1 = 0 then none
  else some (.jnum (if p.1 then -(d.1 : Int) else (d.1 : Int)), dropNumTail d.2.2)

mutual
/-- JSON value parser (fuel-indexed; `jsonParse` supplies ample fuel). -/
def parseVal : Nat → List Char → Option (JVal × List Char)
  | 0, _ => none
  | fuel + 1, cs =>
    match skipWs cs with
    | [] => none
    | 'n' :: 'u' :: 'l' :: 'l' :: rest => some (.jnull, rest)
    | 't' :: 'r' :: 'u' :: 'e' :: rest => some (.jbool true, rest)
    | 'f' :: 'a' :: 'l' :: 's' :: 'e' :: rest => some (.jbool false, rest)
    | '"' :: rest => (parseJStringAux fuel [] rest).map (fun p => (.jstr p.1, p.2))
    | '[' :: rest =>
      (match skipWs rest with
       | ']' :: rest2 => some (.jarr [], rest2)
       | _ => (parseArrTail fuel (skipWs rest)).map (fun p => (.jarr p.1, p.2)))
    | c :: rest =>
      if c = lbraceChar then
        (match skipWs rest with
         | c2 :: rest2 =>
           if c2 = rbraceChar then some (.jobj [], rest2)
           else (parseObjTail fuel (skipWs rest)).map (fun p => (.jobj p.1, p.2))
         | [] => none)
      else if c = '-' ∨ ('0' ≤ c ∧ c ≤ '9') then parseJNumber (c :: rest)
      else none

/-- Array elements after `[` (at least one element expected). -/
def parseArrTail : Nat → List Char → Option (List JVal × List Char)
  | 0, _ => none
  | fuel + 1, cs =>
    match parseVal fuel cs with
    | none => none
    | some (v, rest) =>
      match skipWs rest with
      | ',' :: rest2 => (parseArrTail fuel rest2).map (fun p => (v :: p.1, p.2))
      | ']' :: rest2 => some ([v], rest2)
      | _ => none

/-- Object members after the opening brace (at least one member expected). -/
def parseObjTail : Nat → List Char → Option (List (String × JVal) × List Char)
  | 0, _ => none
  | fuel + 1, cs =>
    match skipWs cs with
    | '"' :: rest =>
      (match parseJStringAux fuel [] rest with
       | none => none
       | some (k, rest1) =>
         match skipWs rest1 with
         | ':' :: rest2 =>
           (match parseVal fuel rest2 with
            | none => none
            | some (v, rest3) =>
              match skipWs rest3 with
              | ',' :: rest4 => (parseObjTail fuel rest4).map (fun p => ((k, v) :: p.1, p.2))
              | c :: rest4 => if c = rbraceChar then some ([(k, v)], rest4) else none
              | [] => none)
         | _ => none)
    | _ => none
end

/-- `JSON.parse`: whole-input JSON value or `none` when the parse throws. -/
def jsonParse (s : String) : Option JVal :=
  match parseVal (4 * s.length + 16) s.toList with
  | some (v, rest) => if (skipWs rest).isEmpty then some v else none
  | none => none

/-- Two-digit lowercase hex rendering (for control-character escapes). -/
def hexStr2 (n : Nat) : String :=
  String.mk [Nat.digitChar (n / 16 % 16), Nat.digitChar (n % 16)]

/-- `JSON.stringify` escaping of one string character. -/
def escapeJChar (c : Char) : String :=
  if c = '"' then "\\\""
  else if c = '\\' then "\\\\"
  else if c = '\n' then "\\n"
  else if c = '\r' then "\\r"
  else if c = '\t' then "\\t"
  else if c.toNat = 8 then "\\b"
  else if c.toNat = 12 then "\\f"
  else if c.toNat < 32 then "\\u00" ++ hexStr2 c.toNat
  else String.mk [c]

/-- `JSON.stringify` rendering of a string literal. -/
def quoteJString (s : String) : String :=
  "\"" ++ String.join (s.toList.map escapeJChar) ++ "\""

mutual
/-- Compact `JSON.stringify(v)`. -/
def stringifyJVal : JVal → String
  | .jnull => "null"
  | .jbool b => cond b "true" "false"
  | .jnum n => toString n
  | .jstr s => quoteJString s
  | .jarr xs => "[" ++ stringifyArr xs ++ "]"
  | .jobj fs => "\x7b" ++ stringifyObj fs ++ "\x7d"

/-- Compact array elements. -/
def stringifyArr : List JVal → String
  | [] => ""
  | [v] => stringifyJVal v
  | v :: vs => stringifyJVal v ++ "," ++ stringifyArr vs

/-- Compact object members. -/
def stringifyObj : List (String × JVal) → String
  | [] => ""
  | [(k, v)] => quoteJString k ++ ":" ++ stringifyJVal v
  | (k, v) :: fs => quoteJString k ++ ":" ++ stringifyJVal v ++ "," ++ stringifyObj fs
end

/-- `n` spaces. -/
def spaces (n : Nat) : String := String.mk (List.replicate n ' ')

mutual
/-- Pretty `JSON.stringify(v, null, 2)` at enclosing indent `ind`
(used only for the `/debug` echo). -/
def stringifyPretty (ind : Nat) : JVal → String
  | .jnull => "null"
  | .jbool b => cond b "true" "false"
  | .jnum n => toString n
  | .jstr s => quoteJString s
  | .jarr [] => "[]"
  | .jarr xs => "[\n" ++ prettyArr (ind + 2) xs ++ "\n" ++ spaces ind ++ "]"
  | .jobj [] => "\x7b\x7d"
  | .jobj fs => "\x7b\n" ++ prettyObj (ind + 2) fs ++ "\n" ++ spaces ind ++ "\x7d"

/-- Pretty array elements (one per line at indent `ind`). -/
def prettyArr (ind : Nat) : List JVal → String
  | [] => ""
  | [v] => spaces ind ++ stringifyPretty ind v
  | v :: vs => spaces ind ++ stringifyPretty ind v ++ ",\n" ++ prettyArr ind vs

/-- Pretty object members (one per line at indent `ind`). -/
def prettyObj (ind : Nat) : List (String × JVal) → String
  | [] => ""
  | [(k, v)] => spaces ind ++ quoteJString k ++ ": " ++ stringifyPretty ind v
  | (k, v) :: fs =>
    spaces ind ++ quoteJString k ++ ": " ++ stringifyPretty ind v ++ ",\n" ++ prettyObj ind fs
end

/-! ### User settings (`Tone`, `loadUserSettings`, `saveUserSettings`) -/

/-- Response tone (`type Tone = "friendly" | "formal" | "technical"`). -/
inductive Tone where
  | friendly
  | formal
  | technical
deriving DecidableEq

/-- The string literal of a tone. -/
def Tone.toStr : Tone → String
  | .friendly => "friendly"
  | .formal => "formal"
  | .technical => "technical"

/-- `interface UserSettings { tone: Tone }`. -/
structure UserSettings where
  tone : Tone
deriving DecidableEq

/-- `DEFAULT_SETTINGS = { tone: "friendly" }`. -/
def DEFAULT_SETTINGS : UserSettings := ⟨.friendly⟩

/-- Membership of a string in the tone literal set, as a `Tone`. -/
def toneFromString (s : String) : Option Tone :=
  if s = "friendly" then some .friendly
  else if s = "formal" then some .formal
  else if s = "technical" then some .technical
  else none

/-- `loadUserSettings`, as a function of the raw stored KV value
(`none` = absent key).  Mirrors src/index.ts lines 46–61: a falsy raw
value, a JSON parse failure, a falsy parse result, a non-string `tone`
field or a `tone` outside the closed set all fall back to the default;
a valid tone is lowercased first.  The validation applied to the parsed
value is the `if (parsed && typeof parsed.tone === "string")` block. -/
def loadUserSettingsParsed (parsed : JVal) : UserSettings :=
  if jsTruthy parsed then
    match jGet parsed "tone" with
    | .jstr t =>
      match toneFromString (strToLower t) with
      | some tone => { tone := tone }
      | none => DEFAULT_SETTINGS
    | _ => DEFAULT_SETTINGS
  else DEFAULT_SETTINGS

def loadUserSettings (raw? : Option String) : UserSettings :=
  match raw? with
  | none => DEFAULT_SETTINGS
  | some raw =>
    if raw = "" then DEFAULT_SETTINGS
    else
      match jsonParse raw with
      | none => DEFAULT_SETTINGS
      | some parsed => loadUserSettingsParsed parsed

/-- The value `saveUserSettings` writes: `JSON.stringify(settings)`. -/
def saveUserSettingsValue (settings : UserSettings) : String :=
  stringifyJVal (.jobj [("tone", .jstr settings.tone.toStr)])

/-! ### Telegram delivery (`sendTelegramText`, src/index.ts lines 17–33) -/

/-- The chunk size `MAX = 4000` (safely under Telegram's 4096 limit). -/
def MAX_CHUNK : Nat := 4000

/-- The successive `text.slice(i, i + MAX)` chunks of the send loop
(fuel-indexed so the definition is structurally recursive; one unit of
fuel per chunk, so any fuel at least the text length is ample). -/
def chunkListAux : Nat → List Char → List (List Char)
  | _, [] => []
  | 0, _ :: _ => []
  | fuel + 1, c :: cs =>
    (c :: cs).take MAX_CHUNK :: chunkListAux fuel ((c :: cs).drop MAX_CHUNK)

/-- The successive `text.slice(i, i + MAX)` chunks of the send loop. -/
def chunkList (cs : List Char) : List (List Char) :=
  chunkListAux cs.length cs

/-- The chunks of a text, in send order. -/
def chunksOf (text : String) : List String :=
  (chunkList text.toList).map String.mk

/-! ### Effects and collaborators -/

/-- One observable interaction with a collaborator (KV store, Telegram
API, OpenAI API), in the order the worker performs them. -/
inductive Effect where
  | kvGet (key : String)
  | kvPut (key : String) (value : String) (expirationTtl : Option Int)
  | telegramSend (chat_id : JVal) (text : String)
  | openaiCall (body : JVal)

/-- `sendTelegramText(chatId, text)`: one `sendMessage` POST per chunk,
in order.  `ok i` is the delivery outcome of chunk `i`; a failed chunk is
only logged (`console.error`), so the loop attempts every chunk
regardless — the function returns the attempted sends together with the
indices of the failed (logged) chunks. -/
def sendTelegramText (chatId : JVal) (text : String) (ok : Nat → Bool) :
    List Effect × List Nat :=
  (go (chunksOf text) 0).1
where
  /-- The `for` loop over chunk index `i`. -/
  go : List String → Nat → (List Effect × List Nat) × Unit
    | [], _ => (([], []), ())
    | chunk :: rest, i =>
      let r := (go rest (i + 1)).1
      ((Effect.telegramSend chatId chunk :: r.1,
        if ok i then r.2 else i :: r.2), ())

/-! ### OpenAI completion client (`invokeOpenAI`, src/index.ts lines 78–150) -/

/-- Worker environment bindings (`interface Env`; `BOT_KV` is the store
collaborator, passed separately). -/
structure Env where
  TELEGRAM_BOT_TOKEN : String
  WEBHOOK_SECRET : Option String
  WEBHOOK_PATH : Option String
  OPENAI_API_KEY : String
  OPENAI_MODEL : Option String

/-- The model name used: `env.OPENAI_MODEL || "gpt-4o-mini"`. -/
def modelOf (env : Env) : String := jsOrString env.OPENAI_MODEL "gpt-4o-mini"

/-- `toneSystemInstruction(tone)` (the `switch`; `friendly` is the
`default` arm). -/
def toneSystemInstruction : Tone → String
  | .formal => "Use a respectful and formal tone with structured explanations."
  | .technical => "Use precise technical terminology and provide detailed, step-by-step explanations."
  | .friendly => "Be friendly, encouraging, and easy to understand."

/-- The full system-message text sent upstream. -/
def systemInstructionText (tone : Tone) : String :=
  "You are a helpful AI assistant replying in the same language the user used. " ++
    toneSystemInstruction tone

/-- `openaiRequestBody`: the JSON body POSTed to `/v1/responses`.
Note the source builds exactly the fields `model` and `input` — there is
no `max_output_tokens` member. -/
def openaiRequestBody (env : Env) (prompt : String) (tone : Tone) : JVal :=
  .jobj
    [("model", .jstr (modelOf env)),
     ("input", .jarr
       [.jobj [("role", .jstr "system"),
               ("content", .jarr [.jobj [("type", .jstr "input_text"),
                                         ("text", .jstr (systemInstructionText tone))]])],
        .jobj [("role", .jstr "user"),
               ("content", .jarr [.jobj [("type", .jstr "input_text"),
                                         ("text", .jstr prompt)]])]])]

/-- Outcome of the single upstream HTTP round trip, supplied as an oracle:
either a response (status, body text, body-as-JSON — `none` when
`response.json()` would throw) or a network-level failure (the `fetch`
promise rejects). -/
inductive UpstreamOutcome where
  | response (status : Nat) (bodyText : String) (bodyJson : Option JVal)
  | networkFailure (message : String)

/-- `response.ok`: status in the 2xx range. -/
def statusOk (status : Nat) : Prop := 200 ≤ status ∧ status < 300

instance (status : Nat) : Decidable (statusOk status) := by
  unfold statusOk; infer_instance

/-- Usage token counts in the normalized result (raw JSON values;
`jnull` models the `?? null` fallback). -/
structure Usage where
  input_tokens : JVal
  output_tokens : JVal
  total_tokens : JVal

/-- Metadata in the normalized result. -/
structure Meta where
  id : JVal
  created : JVal
  stop_reason : JVal

/-- The normalized completion result returned by `invokeOpenAI`. -/
structure CompletionResult where
  model : String
  input : String
  answer : String
  usage : Usage
  meta : Meta

/-- The canned "no answer received" string (Persian). -/
def noAnswerText : String := "پاسخی از مدل دریافت نشد."

/-- `part?.type === "output_text"`. -/
def isOutputTextPart (p : JVal) : Bool :=
  match jGet p "type" with
  | .jstr t => t == "output_text"
  | _ => false

/-- `data?.output?.flatMap(item => item?.content || [])`: a truthy array
`content` contributes its elements, a truthy non-array contributes
itself, a falsy `content` contributes nothing. -/
def flattenContent (items : List JVal) : List JVal :=
  (items.map (fun item =>
    let c := jGet item "content"
    if jsTruthy c then
      match c with
      | .jarr ys => ys
      | other => [other]
    else [])).flatten

/-- The `outputText` expression (src/index.ts lines 123–128): the JS
`a || b || ""` chain over the convenience field and the scanned output
list.  A truthy non-array `data.output` has no `flatMap` method, so that
shape throws (propagating to the gateway's catch). -/
def extractOutputText (data : JVal) : Except String JVal :=
  let firstOp : JVal :=
    match jGet data "output_text" with
    | .jstr s => .jstr (jsTrim s)
    | _ => .jbool false
  if jsTruthy firstOp then .ok firstOp
  else
    match jGet data "output" with
    | .jnull => .ok (.jstr "")
    | .jarr items =>
      let found := (flattenContent items).find? isOutputTextPart
      let secondOp :=
        match found with
        | some p => jGet p "text"
        | none => .jnull
      .ok (if jsTruthy secondOp then secondOp else .jstr "")
    | _ => .error "TypeError: data.output.flatMap is not a function"

/-- `answerText = outputText.trim() || "…"`; a truthy non-string
`outputText` (a non-string `text` part) has no `trim` and throws. -/
def answerTextOf (data : JVal) : Except String String :=
  match extractOutputText data with
  | .error e => .error e
  | .ok (.jstr s) => .ok (if jsTrim s = "" then noAnswerText else jsTrim s)
  | .ok _ => .error "TypeError: outputText.trim is not a function"

/-- The `usage` record of the result (token counts; total only when both
parts are `!= null`). -/
def usageOf (data : JVal) : Usage :=
  let ui := jGet (jGet data "usage") "input_tokens"
  let uo := jGet (jGet data "usage") "output_tokens"
  { input_tokens := ui
    output_tokens := uo
    total_tokens := if !ui.isNullish && !uo.isNullish then jsPlus ui uo else .jnull }

/-- The `meta` record of the result. -/
def metaOf (data : JVal) : Meta :=
  let o0 := jsIndex0 (jGet data "output")
  { id := jGet data "id"
    created := jGet data "created"
    stop_reason := jsNullish (jGet o0 "stop_reason") (jGet o0 "finish_reason") }

/-- `invokeOpenAI(prompt, tone)` given the upstream oracle: the first
component is the request body POSTed upstream (the call is attempted
unconditionally), the second the outcome — `.error` models a thrown
exception (propagating to the gateway's catch), `.ok` the normalized
`CompletionResult`.  On a non-2xx status the source *throws*
`new Error("OpenAI request failed (status): errorText")`. -/
def invokeOpenAI (env : Env) (prompt : String) (tone : Tone)
    (up : UpstreamOutcome) : JVal × Except String CompletionResult :=
  (openaiRequestBody env prompt tone,
  match up with
  | .networkFailure msg => .error msg
  | .response status bodyText bodyJson =>
    if statusOk status then
      match bodyJson with
      | none => .error "SyntaxError: response.json() failed"
      | some data =>
        match answerTextOf data with
        | .error e => .error e
        | .ok answerText =>
          .ok { model := modelOf env
                input := prompt
                answer := answerText
                usage := usageOf data
                meta := metaOf data }
    else .error ("OpenAI request failed (" ++ toString status ++ "): " ++ bodyText))

/-- The debug echo: `JSON.stringify(openAiResult, null, 2)` with the
object-literal field order of the source. -/
def completionResultToJVal (r : CompletionResult) : JVal :=
  .jobj
    [("model", .jstr r.model),
     ("input", .jstr r.input),
     ("answer", .jstr r.answer),
     ("usage", .jobj [("input_tokens", r.usage.input_tokens),
                      ("output_tokens", r.usage.output_tokens),
                      ("total_tokens", r.usage.total_tokens)]),
     ("meta", .jobj [("id", r.meta.id),
                     ("created", r.meta.created),
                     ("stop_reason", r.meta.stop_reason)])]

/-! ### Canned user-facing strings (verbatim from src/index.ts) -/

/-- `/start` welcome message. -/
def startText : String :=
  "سلام! من دستیار هوش مصنوعی شما با قدرت GPT-5 Pro هستم. هر سؤالی دارید بپرسید یا برای دیدن راهنما دستور /help را ارسال کنید."

/-- `respondWithHelp`: the help lines joined by newlines. -/
def helpText : String :=
  String.intercalate "\n"
    ["دستورات در دسترس:",
     "/start - نمایش پیام خوش‌آمد و راهنمای شروع",
     "/help - نمایش همین راهنما",
     "/settings - نمایش تنظیمات فعلی کاربر",
     "/settings_tone [formal|friendly|technical] - تغییر لحن پاسخ‌گویی ربات",
     "/quota - مشاهدهٔ تعداد پیام‌های مصرف‌شده امروز"]

/-- `DAILY_QUOTA = 20` (messages per chat per UTC day). -/
def DAILY_QUOTA : Int := 20

/-- The Persian tone label in the `/settings` reply. -/
def toneLabel : Tone → String
  | .formal => "رسمی"
  | .technical => "فنی"
  | .friendly => "صمیمی"

/-- `respondWithSettings(existingCountForToday)` message. -/
def settingsText (env : Env) (userSettings : UserSettings) (existingCountForToday : Int) : String :=
  String.intercalate "\n"
    ["تنظیمات فعلی شما:",
     "لحن: " ++ toneLabel userSettings.tone,
     "مدل: " ++ modelOf env,
     "پیام‌های امروز: " ++ toString existingCountForToday ++ "/" ++ toString DAILY_QUOTA ++
       " (باقی‌مانده: " ++ toString (max 0 (DAILY_QUOTA - existingCountForToday)) ++ ")"]

/-- `respondWithQuotaStatus` message. -/
def quotaStatusText (existingCount : Int) : String :=
  String.intercalate "\n"
    ["سهمیهٔ امروز شما: " ++ toString existingCount ++ " از " ++ toString DAILY_QUOTA ++ " پیام مصرف شده است.",
     "پیام‌های باقی‌مانده برای امروز: " ++ toString (max 0 (DAILY_QUOTA - existingCount)) ++ ".",
     "سهمیهٔ روزانه در نیمه‌شب UTC (حدود ساعت ۳:۳۰ به وقت ایران) مجدداً شارژ می‌شود."]

/-- Usage hint for an invalid/missing `/settings_tone` argument. -/
def toneUsageHint : String :=
  "برای تغییر لحن، یکی از گزینه‌های زیر را استفاده کنید:\n/settings_tone formal\n/settings_tone friendly\n/settings_tone technical"

/-- Confirmation message after a tone change. -/
def toneDescription : Tone → String
  | .formal => "لحن رسمی فعال شد. پاسخ‌ها محترمانه و ساختارمند خواهند بود."
  | .technical => "لحن فنی فعال شد. پاسخ‌ها با اصطلاحات دقیق و توضیحات جزئی ارائه می‌شوند."
  | .friendly => "لحن صمیمی فعال شد. پاسخ‌ها دوستانه و ساده بیان می‌شوند."

/-- Daily-cap exhaustion message (contains the consumed count and the cap). -/
def quotaExceededText (existingCount : Int) : String :=
  "سقف استفادهٔ رایگان روزانه " ++ toString DAILY_QUOTA ++ " پیام است و شما امروز " ++
    toString existingCount ++ " پیام مصرف کرده‌اید. لطفاً فردا دوباره تلاش کنید."

/-- The catch-block message sent when the pipeline throws. -/
def openaiFailText : String := "خطایی در برقراری ارتباط با سرویس هوش مصنوعی رخ داد."

/-- Default `/debug` prompt when no text follows the command. -/
def debugDefaultPrompt : String := "سلام"

/-! ### Webhook gateway (`fetch`, src/index.ts lines 12–349) -/

/-- The external key-value store (`env.BOT_KV`): an association of keys
to string values.  Expiry is the store's own concern; the TTLs the worker
requests are recorded in the effect trace. -/
abbrev Store := List (String × String)

/-- `BOT_KV.get`. -/
def storeGet (st : Store) (k : String) : Option String :=
  (st.find? (fun p => p.1 == k)).map (fun p => p.2)

/-- `BOT_KV.put` (upsert). -/
def storePut (st : Store) (k v : String) : Store :=
  st.filter (fun p => !(p.1 == k)) ++ [(k, v)]

/-- The inbound HTTP request, reduced to the parts the worker reads:
method, pathname, the `x-telegram-bot-api-secret-token` header and the
body as parsed JSON (`none` when `req.json()` throws). -/
structure WebRequest where
  method : String
  path : String
  secretHeader : Option String
  body : Option JVal

/-- The ambient time, reduced to the two date computations the worker
performs: `now.toISOString().slice(0, 10)` and
`tomorrowUtcMidnight.getTime() - now.getTime()`. -/
structure Clock where
  currentDay : String
  msUntilMidnight : Int

/-- `Math.ceil(diffMs / 1000)` for integer milliseconds. -/
def jsCeilDiv1000 (diffMs : Int) : Int := -((-diffMs).fdiv 1000)

/-- `ttlSecondsUntilTomorrow` (src/index.ts lines 302–314):
`Math.max(1, Math.ceil(diffMs / 1000))`. -/
def ttlSecondsUntilTomorrow (diffMs : Int) : Int :=
  max 1 (jsCeilDiv1000 diffMs)

/-- The quota partition key `` `quota:${chatId}:${currentDay}` ``. -/
def quotaKeyOf (chatId : JVal) (currentDay : String) : String :=
  "quota:" ++ jsToStr chatId ++ ":" ++ currentDay

/-- `getSettingsKey(chatId)`: `` `settings:${chatId}` ``. -/
def settingsKeyOf (chatId : JVal) : String :=
  "settings:" ++ jsToStr chatId

/-- JS `parseInt(s, 10)`: leading whitespace skipped, optional sign,
maximal digit prefix; `none` models `NaN`. -/
def parseIntDec (s : String) : Option Int :=
  let cs := skipWs s.toList
  let p := match cs with
    | '-' :: r => (true, r)
    | '+' :: r => (false, r)
    | _ => (false, cs)
  let d := digitsRun p.2 0 0
  if d.2.1 = 0 then none
  else some (if p.1 then -(d.1 : Int) else (d.1 : Int))

/-- The quota counter read (src/index.ts lines 194–196): a falsy raw
value reads as 0 (the `existingCountRaw ? … : 0` ternary), and a `NaN`
parse reads as 0 (the `Number.isNaN` guard). -/
def existingCountOf (raw? : Option String) : Int :=
  match raw? with
  | none => 0
  | some raw =>
    if raw = "" then 0
    else match parseIntDec raw with
      | some n => n
      | none => 0

/-- `trimmedText.split(/\s+/)` on an already-trimmed string: whitespace
runs separate tokens (JS regex split collapses runs; dropping empty
fragments models that on trimmed input). -/
def splitWs (s : String) : List String :=
  go s.toList []
where
  /-- Accumulate the current token (reversed) and cut at whitespace runs. -/
  go : List Char → List Char → List String
    | [], acc => if acc.isEmpty then [] else [String.mk acc.reverse]
    | c :: cs, acc =>
      if jsWsChar c then
        (if acc.isEmpty then go cs [] else String.mk acc.reverse :: go cs [])
      else go cs (c :: acc)

/-- Split `s` around the first occurrence of `pat` (for JS
`String.replace` with a string pattern, which replaces only the first
occurrence). -/
def splitAtSubstr : List Char → List Char → Option (List Char × List Char)
  | [], pat => if pat.isPrefixOf [] then some ([], []) else none
  | c :: rest, pat =>
    if pat.isPrefixOf (c :: rest) then some ([], (c :: rest).drop pat.length)
    else (splitAtSubstr rest pat).map (fun p => (c :: p.1, p.2))

/-- JS `s.replace(pat, repl)` with a string pattern: first occurrence only. -/
def replaceFirst (s pat repl : String) : String :=
  match splitAtSubstr s.toList pat.toList with
  | none => s
  | some p => String.mk (p.1 ++ repl.toList ++ p.2)

/-- The prompt sent upstream (src/index.ts line 322):
`isDebug ? trimmedText.replace("/debug", "").trim() || "سلام" : text`. -/
def promptOf (textS : String) : String :=
  if strStartsWith (jsTrim textS) "/debug" then
    (if jsTrim (replaceFirst (jsTrim textS) "/debug" "") = "" then debugDefaultPrompt
     else jsTrim (replaceFirst (jsTrim textS) "/debug" ""))
  else textS

/-- The gateway's HTTP reply together with the final store and the
effect trace of the invocation. -/
structure FetchResult where
  status : Nat
  body : String
  store : Store
  effects : List Effect

/-- The message-processing pipeline: the body of the
`if (chatId && typeof text === "string")` branch (src/index.ts
lines 188–339), i.e. the `try` block plus its `catch`.  The `catch`
(reached exactly when `invokeOpenAI` reports a thrown error) sends the
canned failure text and replies 502; no store write is undone. -/
def handleMessage (env : Env) (clock : Clock) (up : UpstreamOutcome) (tgOk : Nat → Bool)
    (store : Store) (chatId : JVal) (textS : String) : FetchResult :=
  let quotaKey := quotaKeyOf chatId clock.currentDay
  let existingCount := existingCountOf (storeGet store quotaKey)
  let trimmedText := jsTrim textS
  let userSettings := loadUserSettings (storeGet store (settingsKeyOf chatId))
  let reads := [Effect.kvGet quotaKey, Effect.kvGet (settingsKeyOf chatId)]
  if trimmedText == "/start" then
    { status := 200, body := "start sent", store := store,
      effects := reads ++ (sendTelegramText chatId startText tgOk).1 }
  else if trimmedText == "/help" then
    { status := 200, body := "help sent", store := store,
      effects := reads ++ (sendTelegramText chatId helpText tgOk).1 }
  else if trimmedText == "/quota" || strStartsWith trimmedText "/quota " then
    { status := 200, body := "quota status sent", store := store,
      effects := reads ++ (sendTelegramText chatId (quotaStatusText existingCount) tgOk).1 }
  else if trimmedText == "/settings" then
    { status := 200, body := "settings sent", store := store,
      effects := reads ++ (sendTelegramText chatId (settingsText env userSettings existingCount) tgOk).1 }
  else if strStartsWith trimmedText "/settings_tone" then
    -- `!newTone || !allowedTones.includes(newTone)` ⇔ `toneFromString newTone = none`
    match toneFromString (strToLower ((splitWs trimmedText).getD 1 "")) with
    | none =>
      { status := 200, body := "invalid tone", store := store,
        effects := reads ++ (sendTelegramText chatId toneUsageHint tgOk).1 }
    | some t =>
      { status := 200, body := "tone updated",
        store := storePut store (settingsKeyOf chatId) (saveUserSettingsValue ⟨t⟩),
        effects := reads ++ [Effect.kvPut (settingsKeyOf chatId) (saveUserSettingsValue ⟨t⟩) none]
                   ++ (sendTelegramText chatId (toneDescription t) tgOk).1 }
  else if DAILY_QUOTA ≤ existingCount then
    { status := 200, body := "daily quota exceeded", store := store,
      effects := reads ++ (sendTelegramText chatId (quotaExceededText existingCount) tgOk).1 }
  else
    let ttl := ttlSecondsUntilTomorrow clock.msUntilMidnight
    let newCount := toString (existingCount + 1)
    let store1 := storePut store quotaKey newCount
    let isDebug := strStartsWith trimmedText "/debug"
    let call := invokeOpenAI env (promptOf textS) userSettings.tone up
    let effs := reads ++ [Effect.kvPut quotaKey newCount (some ttl), Effect.openaiCall call.1]
    match call.2 with
    | .ok r =>
      let answerMsg := if isDebug then stringifyPretty 0 (completionResultToJVal r) else r.answer
      { status := 200, body := "ok", store := store1,
        effects := effs ++ (sendTelegramText chatId answerMsg tgOk).1 }
    | .error _ =>
      { status := 502, body := "openai error", store := store1,
        effects := effs ++ (sendTelegramText chatId openaiFailText tgOk).1 }

/-- Does the configured secret reject this request?
(`if (env.WEBHOOK_SECRET)` — an unset or empty secret disables the
check; otherwise the header must equal it.) -/
def secretRejects (env : Env) (req : WebRequest) : Bool :=
  match env.WEBHOOK_SECRET with
  | some s => if s == "" then false else !(req.secretHeader == some s)
  | none => false

/-- The worker's `fetch` entry point: health route, webhook routing,
secret check, body parse, chat/text extraction, then the pipeline. -/
def workerFetch (env : Env) (req : WebRequest) (clock : Clock) (up : UpstreamOutcome)
    (tgOk : Nat → Bool) (store : Store) : FetchResult :=
  if req.method == "GET" && req.path == "/" then
    { status := 200, body := "ok", store := store, effects := [] }
  else if req.method == "POST" && req.path == jsOrString env.WEBHOOK_PATH "/webhook" then
    if secretRejects env req then
      { status := 401, body := "unauthorized", store := store, effects := [] }
    else
      match req.body with
      | none => { status := 400, body := "bad json", store := store, effects := [] }
      | some update =>
        if jsTruthy (jGet (jGet (jGet update "message") "chat") "id") then
          match jGet (jGet update "message") "text" with
          | .jstr s =>
            if env.OPENAI_API_KEY == "" then
              { status := 500, body := "missing openai api key", store := store, effects := [] }
            else
              handleMessage env clock up tgOk store
                (jGet (jGet (jGet update "message") "chat") "id") s
          | _ => { status := 200, body := "ok", store := store, effects := [] }
        else { status := 200, body := "ok", store := store, effects := [] }
  else { status := 404, body := "not found", store := store, effects := [] }

/-! ### Concrete instances used by witnesses and counterexamples -/

/-- A concrete environment (secret configured, API key present). -/
def envW : Env := ⟨"token", some "sec", none, "key", none⟩

/-- A concrete environment with the `OPENAI_API_KEY` binding empty. -/
def envNoKey : Env := ⟨"token", some "sec", none, "", none⟩

/-- A concrete clock: 2026-10-11, one hour to UTC midnight. -/
def clockW : Clock := ⟨"2026-10-11", 3600000⟩

/-- A Telegram update body with the given `message.chat.id` and `message.text`. -/
def updW (cid t : JVal) : JVal :=
  .jobj [("message", .jobj [("chat", .jobj [("id", cid)]), ("text", t)])]

/-- A webhook POST with the matching secret header and the given parsed body. -/
def reqW (body : Option JVal) : WebRequest := ⟨"POST", "/webhook", some "sec", body⟩

/-- A successful upstream completion response. -/
def upOkW : UpstreamOutcome :=
  .response 200 "" (some (.jobj [("output_text", .jstr "hi there")]))

/-- An upstream rate/quota-exhaustion failure (HTTP 429). -/
def upErrW : UpstreamOutcome := .response 429 "quota exceeded" none

/-- A delivery oracle under which every Telegram chunk succeeds. -/
def tgOkW : Nat → Bool := fun _ => true

/-- Is an effect an upstream completion call? -/
def isOpenaiCallEff : Effect → Bool
  | .openaiCall _ => true
  | _ => false

/-- Is an effect a KV write? -/
def isKvPutEff : Effect → Bool
  | .kvPut _ _ _ => true
  | _ => false

/-! ### Helper lemmas -/

theorem sendTelegramText_go_fst (chatId : JVal) (ok : Nat → Bool) :
    ∀ (chunks : List String) (i : Nat),
      ((sendTelegramText.go chatId ok chunks i).1).1 =
        chunks.map (Effect.telegramSend chatId) := by
  intro chunks
  induction chunks with
  | nil => intro i; rfl
  | cons c cs ih =>
    intro i
    simp only [sendTelegramText.go, List.map_cons]
    rw [ih]

theorem sendTelegramText_fst (chatId : JVal) (text : String) (ok : Nat → Bool) :
    (sendTelegramText chatId text ok).1 =
      (chunksOf text).map (Effect.telegramSend chatId) := by
  unfold sendTelegramText
  exact sendTelegramText_go_fst chatId ok (chunksOf text) 0

theorem chunkListAux_flatten : ∀ (fuel : Nat) (cs : List Char), cs.length ≤ fuel →
    (chunkListAux fuel cs).flatten = cs := by
  intro fuel
  induction fuel with
  | zero =>
    intro cs h
    cases cs with
    | nil => rfl
    | cons c cs => simp at h
  | succ fuel ih =>
    intro cs h
    cases cs with
    | nil => rfl
    | cons c cs =>
      have hlen : ((c :: cs).drop MAX_CHUNK).length ≤ fuel := by
        rw [List.length_drop]
        simp only [List.length_cons] at h ⊢
        simp only [MAX_CHUNK]
        omega
      show ((c :: cs).take MAX_CHUNK :: chunkListAux fuel ((c :: cs).drop MAX_CHUNK)).flatten =
        c :: cs
      rw [List.flatten_cons, ih _ hlen, List.take_append_drop]

theorem chunkList_flatten (cs : List Char) : (chunkList cs).flatten = cs :=
  chunkListAux_flatten cs.length cs le_rfl

theorem chunksOf_reconstruct (text : String) :
    ((chunksOf text).map String.toList).flatten = text.toList := by
  unfold chunksOf
  rw [List.map_map]
  have : (String.toList ∘ String.mk) = id := by funext l; rfl
  rw [this, List.map_id]
  exact chunkList_flatten text.toList

theorem storeGet_storePut_self (st : Store) (k v : String) :
    storeGet (storePut st k v) k = some v := by
  unfold storeGet storePut
  induction st with
  | nil => simp
  | cons p st ih =>
    by_cases h : (p.1 == k) = true
    · simpa [h] using ih
    · simp only [List.filter_cons]
      simp only [h]
      simp only [Bool.not_eq_true] at h
      simp [List.find?_cons, h, ih]

theorem storeGet_storePut_ne (st : Store) (k v k' : String) (h : (k' == k) = false) :
    storeGet (storePut st k v) k' = storeGet st k' := by
  unfold storeGet storePut
  induction st with
  | nil =>
    simp only [List.filter_nil, List.nil_append]
    have hk : (k == k') = false := by
      cases hkk : k == k' with
      | false => rfl
      | true => simp_all [beq_iff_eq]
    simp [List.find?_cons, hk]
  | cons p st ih =>
    by_cases hp : (p.1 == k) = true
    · -- p is dropped by the filter, and p does not match k' either
      have hpk : (p.1 == k') = false := by
        have : p.1 = k := by simpa [beq_iff_eq] using hp
        subst this
        cases hkk : p.1 == k' with
        | false => rfl
        | true => simp_all [beq_iff_eq]
      simp only [List.filter_cons, hp, Bool.not_true, List.find?_cons, hpk]
      simpa [hpk] using ih
    · have hp' : (p.1 == k) = false := by simpa using hp
      simp only [List.filter_cons, hp', Bool.not_false, if_true, List.cons_append]
      cases hm : p.1 == k' with
      | true => simp only [List.find?_cons, hm]
      | false =>
        simp only [List.find?_cons, hm]
        exact ih

theorem quotaKey_ne (chatId : JVal) (day : String) :
    (("openai:quota:block-until" : String) == quotaKeyOf chatId day) = false := by
  cases hb : ("openai:quota:block-until" : String) == quotaKeyOf chatId day with
  | false => rfl
  | true =>
    exfalso
    have h : ("openai:quota:block-until" : String) = quotaKeyOf chatId day := by
      simpa [beq_iff_eq] using hb
    have := congrArg String.data h
    rw [quotaKeyOf] at this
    simp only [String.data_append] at this
    exact absurd (List.head_eq_of_cons_eq this) (by decide)

theorem settingsKey_ne (chatId : JVal) :
    (("openai:quota:block-until" : String) == settingsKeyOf chatId) = false := by
  cases hb : ("openai:quota:block-until" : String) == settingsKeyOf chatId with
  | false => rfl
  | true =>
    exfalso
    have h : ("openai:quota:block-until" : String) = settingsKeyOf chatId := by
      simpa [beq_iff_eq] using hb
    have := congrArg String.data h
    rw [settingsKeyOf] at this
    simp only [String.data_append] at this
    exact absurd (List.head_eq_of_cons_eq this) (by decide)

theorem handleMessage_quotaExceeded (env : Env) (clock : Clock) (up : UpstreamOutcome)
    (tgOk : Nat → Bool) (store : Store) (chatId : JVal) (textS : String)
    (h1 : (jsTrim textS == "/start") = false)
    (h2 : (jsTrim textS == "/help") = false)
    (h3 : (jsTrim textS == "/quota") = false)
    (h4 : strStartsWith (jsTrim textS) "/quota " = false)
    (h5 : (jsTrim textS == "/settings") = false)
    (h6 : strStartsWith (jsTrim textS) "/settings_tone" = false)
    (hq : DAILY_QUOTA ≤ existingCountOf (storeGet store (quotaKeyOf chatId clock.currentDay))) :
    handleMessage env clock up tgOk store chatId textS =
      { status := 200, body := "daily quota exceeded", store := store,
        effects := [Effect.kvGet (quotaKeyOf chatId clock.currentDay),
                    Effect.kvGet (settingsKeyOf chatId)]
          ++ (sendTelegramText chatId
                (quotaExceededText
                  (existingCountOf (storeGet store (quotaKeyOf chatId clock.currentDay)))) tgOk).1 } := by
  unfold handleMessage
  simp only [h1, h2, h3, h4, h5, h6, Bool.or_self, Bool.false_eq_true, if_false, if_pos hq]

theorem handleMessage_main_err (env : Env) (clock : Clock) (up : UpstreamOutcome)
    (tgOk : Nat → Bool) (store : Store) (chatId : JVal) (textS : String) (e : String)
    (h1 : (jsTrim textS == "/start") = false)
    (h2 : (jsTrim textS == "/help") = false)
    (h3 : (jsTrim textS == "/quota") = false)
    (h4 : strStartsWith (jsTrim textS) "/quota " = false)
    (h5 : (jsTrim textS == "/settings") = false)
    (h6 : strStartsWith (jsTrim textS) "/settings_tone" = false)
    (hq : ¬ DAILY_QUOTA ≤ existingCountOf (storeGet store (quotaKeyOf chatId clock.currentDay)))
    (hfail : (invokeOpenAI env (promptOf textS)
        (loadUserSettings (storeGet store (settingsKeyOf chatId))).tone up).2 = .error e) :
    handleMessage env clock up tgOk store chatId textS =
      { status := 502, body := "openai error",
        store := storePut store (quotaKeyOf chatId clock.currentDay)
          (toString (existingCountOf (storeGet store (quotaKeyOf chatId clock.currentDay)) + 1)),
        effects := [Effect.kvGet (quotaKeyOf chatId clock.currentDay),
                    Effect.kvGet (settingsKeyOf chatId),
                    Effect.kvPut (quotaKeyOf chatId clock.currentDay)
                      (toString (existingCountOf (storeGet store (quotaKeyOf chatId clock.currentDay)) + 1))
                      (some (ttlSecondsUntilTomorrow clock.msUntilMidnight)),
                    Effect.openaiCall (invokeOpenAI env (promptOf textS)
                      (loadUserSettings (storeGet store (settingsKeyOf chatId))).tone up).1]
          ++ (sendTelegramText chatId openaiFailText tgOk).1 } := by
  unfold handleMessage
  simp only [h1, h2, h3, h4, h5, h6, Bool.or_self, Bool.false_eq_true, if_false, if_neg hq, hfail]
  rfl

theorem handleMessage_main_ok (env : Env) (clock : Clock) (up : UpstreamOutcome)
    (tgOk : Nat → Bool) (store : Store) (chatId : JVal) (textS : String) (r : CompletionResult)
    (h1 : (jsTrim textS == "/start") = false)
    (h2 : (jsTrim textS == "/help") = false)
    (h3 : (jsTrim textS == "/quota") = false)
    (h4 : strStartsWith (jsTrim textS) "/quota " = false)
    (h5 : (jsTrim textS == "/settings") = false)
    (h6 : strStartsWith (jsTrim textS) "/settings_tone" = false)
    (hq : ¬ DAILY_QUOTA ≤ existingCountOf (storeGet store (quotaKeyOf chatId clock.currentDay)))
    (hok : (invokeOpenAI env (promptOf textS)
        (loadUserSettings (storeGet store (settingsKeyOf chatId))).tone up).2 = .ok r) :
    handleMessage env clock up tgOk store chatId textS =
      { status := 200, body := "ok",
        store := storePut store (quotaKeyOf chatId clock.currentDay)
          (toString (existingCountOf (storeGet store (quotaKeyOf chatId clock.currentDay)) + 1)),
        effects := [Effect.kvGet (quotaKeyOf chatId clock.currentDay),
                    Effect.kvGet (settingsKeyOf chatId),
                    Effect.kvPut (quotaKeyOf chatId clock.currentDay)
                      (toString (existingCountOf (storeGet store (quotaKeyOf chatId clock.currentDay)) + 1))
                      (some (ttlSecondsUntilTomorrow clock.msUntilMidnight)),
                    Effect.openaiCall (invokeOpenAI env (promptOf textS)
                      (loadUserSettings (storeGet store (settingsKeyOf chatId))).tone up).1]
          ++ (sendTelegramText chatId
                (if strStartsWith (jsTrim textS) "/debug" then
                  stringifyPretty 0 (completionResultToJVal r)
                 else r.answer) tgOk).1 } := by
  unfold handleMessage
  simp only [h1, h2, h3, h4, h5, h6, Bool.or_self, Bool.false_eq_true, if_false, if_neg hq, hok]
  simp [List.append_assoc]

theorem handleMessage_tone_invalid (env : Env) (clock : Clock) (up : UpstreamOutcome)
    (tgOk : Nat → Bool) (store : Store) (chatId : JVal) (textS : String)
    (h1 : (jsTrim textS == "/start") = false)
    (h2 : (jsTrim textS == "/help") = false)
    (h3 : (jsTrim textS == "/quota") = false)
    (h4 : strStartsWith (jsTrim textS) "/quota " = false)
    (h5 : (jsTrim textS == "/settings") = false)
    (h6 : strStartsWith (jsTrim textS) "/settings_tone" = true)
    (ht : toneFromString (strToLower ((splitWs (jsTrim textS)).getD 1 "")) = none) :
    handleMessage env clock up tgOk store chatId textS =
      { status := 200, body := "invalid tone", store := store,
        effects := [Effect.kvGet (quotaKeyOf chatId clock.currentDay),
                    Effect.kvGet (settingsKeyOf chatId)]
          ++ (sendTelegramText chatId toneUsageHint tgOk).1 } := by
  unfold handleMessage
  simp only [h1, h2, h3, h4, h5, h6, Bool.or_self, Bool.false_eq_true, if_false, if_true, ht]

theorem handleMessage_tone_valid (env : Env) (clock : Clock) (up : UpstreamOutcome)
    (tgOk : Nat → Bool) (store : Store) (chatId : JVal) (textS : String) (t : Tone)
    (h1 : (jsTrim textS == "/start") = false)
    (h2 : (jsTrim textS == "/help") = false)
    (h3 : (jsTrim textS == "/quota") = false)
    (h4 : strStartsWith (jsTrim textS) "/quota " = false)
    (h5 : (jsTrim textS == "/settings") = false)
    (h6 : strStartsWith (jsTrim textS) "/settings_tone" = true)
    (ht : toneFromString (strToLower ((splitWs (jsTrim textS)).getD 1 "")) = some t) :
    handleMessage env clock up tgOk store chatId textS =
      { status := 200, body := "tone updated",
        store := storePut store (settingsKeyOf chatId) (saveUserSettingsValue ⟨t⟩),
        effects := [Effect.kvGet (quotaKeyOf chatId clock.currentDay),
                    Effect.kvGet (settingsKeyOf chatId),
                    Effect.kvPut (settingsKeyOf chatId) (saveUserSettingsValue ⟨t⟩) none]
          ++ (sendTelegramText chatId (toneDescription t) tgOk).1 } := by
  unfold handleMessage
  simp only [h1, h2, h3, h4, h5, h6, Bool.or_self, Bool.false_eq_true, if_false, if_true, ht]
  simp [List.append_assoc]

theorem workerFetch_pipeline (env : Env) (req : WebRequest) (clock : Clock)
    (up : UpstreamOutcome) (tgOk : Nat → Bool) (store : Store) (update : JVal) (textS : String)
    (hm : req.method = "POST")
    (hp : req.path = jsOrString env.WEBHOOK_PATH "/webhook")
    (hs : secretRejects env req = false)
    (hb : req.body = some update)
    (hcid : jsTruthy (jGet (jGet (jGet update "message") "chat") "id") = true)
    (htext : jGet (jGet update "message") "text" = .jstr textS)
    (hkey : (env.OPENAI_API_KEY == "") = false) :
    workerFetch env req clock up tgOk store =
      handleMessage env clock up tgOk store
        (jGet (jGet (jGet update "message") "chat") "id") textS := by
  unfold workerFetch
  simp only [hm, hp, hs, hb, hcid, htext, hkey, Bool.false_eq_true, if_false, if_true]
  simp

theorem quotaExceededText_contains (c : Int) :
    (toString c).data <:+: (quotaExceededText c).data ∧
      (toString DAILY_QUOTA).data <:+: (quotaExceededText c).data := by
  constructor
  · exact ⟨("سقف استفادهٔ رایگان روزانه " ++ toString DAILY_QUOTA ++ " پیام است و شما امروز ").data,
      (" پیام مصرف کرده‌اید. لطفاً فردا دوباره تلاش کنید.").data,
      by simp [quotaExceededText, String.data_append, List.append_assoc]⟩
  · exact ⟨("سقف استفادهٔ رایگان روزانه ").data,
      (" پیام است و شما امروز " ++ toString c ++ " پیام مصرف کرده‌اید. لطفاً فردا دوباره تلاش کنید.").data,
      by simp [quotaExceededText, String.data_append, List.append_assoc]⟩

/-- C2: for every non-command message (and every `/debug` message, which is
not an early-return command) in a request that reaches the pipeline, if the
count read for `(chatId, currentDay)` is at or above the daily cap, the
request writes nothing (store unchanged and no `kvPut`), makes no upstream
completion call, replies 200, and the user reply is the exhaustion message,
which contains the consumed count and the cap. -/
theorem quota_exhausted_no_write_no_call (env : Env) (req : WebRequest) (clock : Clock)
    (up : UpstreamOutcome) (tgOk : Nat → Bool) (store : Store) (update : JVal) (textS : String)
    (hm : req.method = "POST")
    (hp : req.path = jsOrString env.WEBHOOK_PATH "/webhook")
    (hs : secretRejects env req = false)
    (hb : req.body = some update)
    (hcid : jsTruthy (jGet (jGet (jGet update "message") "chat") "id") = true)
    (htext : jGet (jGet update "message") "text" = .jstr textS)
    (hkey : (env.OPENAI_API_KEY == "") = false)
    (h1 : (jsTrim textS == "/start") = false)
    (h2 : (jsTrim textS == "/help") = false)
    (h3 : (jsTrim textS == "/quota") = false)
    (h4 : strStartsWith (jsTrim textS) "/quota " = false)
    (h5 : (jsTrim textS == "/settings") = false)
    (h6 : strStartsWith (jsTrim textS) "/settings_tone" = false)
    (hq : DAILY_QUOTA ≤ existingCountOf (storeGet store
            (quotaKeyOf (jGet (jGet (jGet update "message") "chat") "id") clock.currentDay))) :
    (workerFetch env req clock up tgOk store).store = store ∧
    (∀ k v ttl, Effect.kvPut k v ttl ∉ (workerFetch env req clock up tgOk store).effects) ∧
    (∀ b, Effect.openaiCall b ∉ (workerFetch env req clock up tgOk store).effects) ∧
    (workerFetch env req clock up tgOk store).status = 200 ∧
    (workerFetch env req clock up tgOk store).effects =
      [Effect.kvGet (quotaKeyOf (jGet (jGet (jGet update "message") "chat") "id") clock.currentDay),
       Effect.kvGet (settingsKeyOf (jGet (jGet (jGet update "message") "chat") "id"))]
      ++ (chunksOf (quotaExceededText (existingCountOf (storeGet store
            (quotaKeyOf (jGet (jGet (jGet update "message") "chat") "id") clock.currentDay))))).map
          (Effect.telegramSend (jGet (jGet (jGet update "message") "chat") "id")) ∧
    (toString (existingCountOf (storeGet store
        (quotaKeyOf (jGet (jGet (jGet update "message") "chat") "id") clock.currentDay)))).data
      <:+: (quotaExceededText (existingCountOf (storeGet store
        (quotaKeyOf (jGet (jGet (jGet update "message") "chat") "id") clock.currentDay)))).data ∧
    (toString DAILY_QUOTA).data
      <:+: (quotaExceededText (existingCountOf (storeGet store
        (quotaKeyOf (jGet (jGet (jGet update "message") "chat") "id") clock.currentDay)))).data := by
  rw [workerFetch_pipeline env req clock up tgOk store update textS hm hp hs hb hcid htext hkey,
      handleMessage_quotaExceeded env clock up tgOk store _ textS h1 h2 h3 h4 h5 h6 hq]
  refine ⟨rfl, ?_, ?_, rfl, ?_, (quotaExceededText_contains _).1, (quotaExceededText_contains _).2⟩
  · intro k v ttl hmem
    rw [sendTelegramText_fst] at hmem
    simp only [List.mem_append, List.mem_cons, List.mem_map, List.not_mem_nil] at hmem
    rcases hmem with (h | h | h) | ⟨c, _, h⟩ <;> simp_all
  · intro b hmem
    rw [sendTelegramText_fst] at hmem
    simp only [List.mem_append, List.mem_cons, List.mem_map, List.not_mem_nil] at hmem
    rcases hmem with (h | h | h) | ⟨c, _, h⟩ <;> simp_all
  · rw [sendTelegramText_fst]

/-- C2 witness: chat 42 has already consumed 20 of 20 messages today; a
plain message is rejected with no write and no completion call. -/
theorem quota_exhausted_witness :
    (workerFetch envW (reqW (some (updW (.jnum 42) (.jstr "hello")))) clockW upOkW tgOkW
        [("quota:42:2026-10-11", "20")]).status = 200 ∧
    (workerFetch envW (reqW (some (updW (.jnum 42) (.jstr "hello")))) clockW upOkW tgOkW
        [("quota:42:2026-10-11", "20")]).store = [("quota:42:2026-10-11", "20")] ∧
    (∀ b, Effect.openaiCall b ∉
      (workerFetch envW (reqW (some (updW (.jnum 42) (.jstr "hello")))) clockW upOkW tgOkW
        [("quota:42:2026-10-11", "20")]).effects) := by
  have h := quota_exhausted_no_write_no_call envW (reqW (some (updW (.jnum 42) (.jstr "hello"))))
    clockW upOkW tgOkW [("quota:42:2026-10-11", "20")] (updW (.jnum 42) (.jstr "hello")) "hello"
    rfl rfl rfl rfl rfl rfl rfl rfl rfl rfl rfl rfl rfl (by decide)
  exact ⟨h.2.2.2.1, h.1, h.2.2.1⟩

theorem chunkListAux_pos (fuel : Nat) (cs : List Char) (hf : 0 < fuel) (h : cs ≠ []) :
    chunkListAux fuel cs = cs.take MAX_CHUNK :: chunkListAux (fuel - 1) (cs.drop MAX_CHUNK) := by
  cases fuel with
  | zero => omega
  | succ f =>
    cases cs with
    | nil => exact absurd rfl h
    | cons c cs => simp [chunkListAux]

theorem chunkList_replicate_4050 :
    chunkList (List.replicate 4050 'a') =
      [List.replicate 4000 'a', List.replicate 50 'a'] := by
  have hne : ∀ (n : Nat) (a : Char), n ≠ 0 → List.replicate n a ≠ [] := by
    intro n a hn hcon
    have hl := congrArg List.length hcon
    rw [List.length_replicate] at hl
    exact hn hl
  show chunkListAux (List.replicate 4050 'a').length (List.replicate 4050 'a') = _
  rw [List.length_replicate]
  rw [chunkListAux_pos 4050 _ (by norm_num) (hne 4050 'a' (by norm_num))]
  rw [List.take_replicate, List.drop_replicate]
  norm_num [MAX_CHUNK]
  rw [chunkListAux_pos 4049 _ (by norm_num) (hne 50 'a' (by norm_num))]
  rw [List.take_replicate, List.drop_replicate]
  norm_num [MAX_CHUNK]
  simp [chunkListAux]


/-- C5: `sendTelegramText` attempts one delivery per 4000-character chunk,
in order; concatenating the chunks in send order reconstructs the text;
the attempted deliveries do not depend on per-chunk delivery outcomes
(a failed chunk never suppresses later attempts); and a 4050-character
text yields exactly two calls of lengths 4000 and 50 whose concatenation
is the original text. -/
theorem sendText_chunking_spec :
    (∀ (chatId : JVal) (text : String) (ok : Nat → Bool),
      (sendTelegramText chatId text ok).1 =
        (chunksOf text).map (Effect.telegramSend chatId)) ∧
    (∀ text : String, ((chunksOf text).map String.toList).flatten = text.toList) ∧
    (∀ (chatId : JVal) (text : String) (ok okFail : Nat → Bool),
      (sendTelegramText chatId text ok).1 = (sendTelegramText chatId text okFail).1) ∧
    (chunksOf (String.mk (List.replicate 4050 'a'))).map String.length = [4000, 50] ∧
    String.join (chunksOf (String.mk (List.replicate 4050 'a'))) =
      String.mk (List.replicate 4050 'a') := by
  refine ⟨sendTelegramText_fst, chunksOf_reconstruct, ?_, ?_, ?_⟩
  · intro chatId text ok okFail
    rw [sendTelegramText_fst, sendTelegramText_fst]
  · show (chunksOf (String.mk (List.replicate 4050 'a'))).map String.length = [4000, 50]
    unfold chunksOf
    rw [show (String.mk (List.replicate 4050 'a')).toList = List.replicate 4050 'a' from rfl]
    rw [chunkList_replicate_4050]
    simp only [List.map_cons, List.map_nil, String.length_mk, List.length_replicate]
  · unfold chunksOf
    rw [show (String.mk (List.replicate 4050 'a')).toList = List.replicate 4050 'a' from rfl]
    rw [chunkList_replicate_4050]
    show String.mk (List.replicate 4000 'a') ++ (String.mk (List.replicate 50 'a') ++ "") =
      String.mk (List.replicate 4050 'a')
    apply String.ext
    show List.replicate 4000 'a' ++ (List.replicate 50 'a' ++ ([] : List Char)) =
      List.replicate 4050 'a'
    rw [List.append_nil, ← List.replicate_add]

/-- C9: reading a chat's settings is a total function of the stored entry
(the embedding throws nowhere) whose tone always lies in the closed set;
an absent key, an unparseable entry, a falsy parse result, a non-string
`tone` and a tone outside the closed set all read as the default
`friendly`; a valid tone stored in any letter case is lowercased and
accepted. -/
theorem loadUserSettings_total_safe :
    (∀ raw? : Option String,
      (loadUserSettings raw?).tone ∈ [Tone.friendly, Tone.formal, Tone.technical]) ∧
    loadUserSettings none = DEFAULT_SETTINGS ∧
    (∀ raw, jsonParse raw = none → loadUserSettings (some raw) = DEFAULT_SETTINGS) ∧
    (∀ raw p, jsonParse raw = some p → jsTruthy p = false →
      loadUserSettings (some raw) = DEFAULT_SETTINGS) ∧
    (∀ raw p, jsonParse raw = some p → (∀ s, jGet p "tone" ≠ .jstr s) →
      loadUserSettings (some raw) = DEFAULT_SETTINGS) ∧
    (∀ raw p s, jsonParse raw = some p → jGet p "tone" = .jstr s →
      toneFromString (strToLower s) = none →
      loadUserSettings (some raw) = DEFAULT_SETTINGS) ∧
    (∀ raw p s t, jsonParse raw = some p → jsTruthy p = true →
      jGet p "tone" = .jstr s → toneFromString (strToLower s) = some t →
      loadUserSettings (some raw) = ⟨t⟩) ∧
    DEFAULT_SETTINGS = ⟨Tone.friendly⟩ := by
  have hempty : ∀ raw : String, jsonParse raw ≠ none → raw ≠ "" := by
    intro raw h he
    subst he
    exact h rfl
  have hsome : ∀ (raw : String) (p : JVal), jsonParse raw = some p →
      loadUserSettings (some raw) = loadUserSettingsParsed p := by
    intro raw p hp
    have he := hempty raw (by rw [hp]; exact Option.noConfusion)
    simp only [loadUserSettings]
    rw [if_neg he, hp]
  refine ⟨?_, rfl, ?_, ?_, ?_, ?_, ?_, rfl⟩
  · intro raw?
    have h : ∀ u : UserSettings, u.tone ∈ [Tone.friendly, Tone.formal, Tone.technical] := by
      intro u
      cases hu : u.tone <;> simp
    exact h _
  · intro raw hp
    simp only [loadUserSettings]
    by_cases he : raw = ""
    · rw [if_pos he]
    · rw [if_neg he, hp]
  · intro raw p hp htr
    rw [hsome raw p hp]
    unfold loadUserSettingsParsed
    simp only [htr, Bool.false_eq_true, if_false]
  · intro raw p hp hg
    rw [hsome raw p hp]
    unfold loadUserSettingsParsed
    split
    · cases hgv : jGet p "tone" with
      | jstr s => exact absurd hgv (hg s)
      | jnull => rfl
      | jbool b => rfl
      | jnum n => rfl
      | jarr xs => rfl
      | jobj fs => rfl
    · rfl
  · intro raw p s hp hg ht
    rw [hsome raw p hp]
    unfold loadUserSettingsParsed
    split
    · simp only [hg, ht]
    · rfl
  · intro raw p s t hp htr hg ht
    rw [hsome raw p hp]
    unfold loadUserSettingsParsed
    simp only [htr, if_true, hg, ht]

/-- C9 witness: concrete stored entries — an uppercase valid tone is
accepted lowercased; junk, a numeric tone, an out-of-set tone and a falsy
parse all read as the default. -/
theorem loadUserSettings_witness :
    (loadUserSettings (some "\x7b\"tone\":\"TECHNICAL\"\x7d")).tone ∈
      [Tone.friendly, Tone.formal, Tone.technical] ∧
    loadUserSettings (some "not json") = DEFAULT_SETTINGS ∧
    loadUserSettings (some "0") = DEFAULT_SETTINGS ∧
    loadUserSettings (some "\x7b\"tone\": 5\x7d") = DEFAULT_SETTINGS ∧
    loadUserSettings (some "\x7b\"tone\": \"loud\"\x7d") = DEFAULT_SETTINGS ∧
    loadUserSettings (some "\x7b\"tone\":\"TECHNICAL\"\x7d") = ⟨Tone.technical⟩ := by
  have h := loadUserSettings_total_safe
  exact ⟨h.1 _,
    h.2.2.1 "not json" rfl,
    h.2.2.2.1 "0" (.jnum 0) rfl rfl,
    h.2.2.2.2.1 "\x7b\"tone\": 5\x7d" (.jobj [("tone", .jnum 5)]) rfl
      (fun s hcon => JVal.noConfusion hcon),
    h.2.2.2.2.2.1 "\x7b\"tone\": \"loud\"\x7d" (.jobj [("tone", .jstr "loud")]) "loud" rfl rfl rfl,
    h.2.2.2.2.2.2.1 "\x7b\"tone\":\"TECHNICAL\"\x7d" (.jobj [("tone", .jstr "TECHNICAL")])
      "TECHNICAL" Tone.technical rfl rfl rfl rfl⟩

/-- C10: for an authenticated, well-formed webhook body whose
`message.chat.id` is falsy (`0` in particular), the gateway performs no
store read or write and no outbound call (empty effect trace, store
unchanged) and replies 200 "ok". -/
theorem falsy_chatId_no_action (env : Env) (req : WebRequest) (clock : Clock)
    (up : UpstreamOutcome) (tgOk : Nat → Bool) (store : Store) (update : JVal)
    (hm : req.method = "POST")
    (hp : req.path = jsOrString env.WEBHOOK_PATH "/webhook")
    (hs : secretRejects env req = false)
    (hb : req.body = some update)
    (hcid : jsTruthy (jGet (jGet (jGet update "message") "chat") "id") = false) :
    workerFetch env req clock up tgOk store =
      { status := 200, body := "ok", store := store, effects := [] } := by
  unfold workerFetch
  simp only [hm, hp, hs, hb, hcid, Bool.false_eq_true, if_false, if_true]
  simp

/-- C10 witness: `message.chat.id = 0` with a well-formed text. -/
theorem falsy_chatId_witness :
    workerFetch envW (reqW (some (updW (.jnum 0) (.jstr "hello")))) clockW upOkW tgOkW
        [("quota:0:2026-10-11", "3")] =
      { status := 200, body := "ok", store := [("quota:0:2026-10-11", "3")], effects := [] } :=
  falsy_chatId_no_action envW (reqW (some (updW (.jnum 0) (.jstr "hello")))) clockW upOkW tgOkW
    [("quota:0:2026-10-11", "3")] (updW (.jnum 0) (.jstr "hello")) rfl rfl rfl rfl rfl

theorem loadUserSettings_save_roundtrip (t : Tone) :
    loadUserSettings (some (saveUserSettingsValue ⟨t⟩)) = ⟨t⟩ := by
  cases t <;> decide

theorem settings_tone_valid_general (env : Env) (req : WebRequest) (clock : Clock)
    (up : UpstreamOutcome) (tgOk : Nat → Bool) (store : Store) (update : JVal)
    (textS : String) (t : Tone)
    (hm : req.method = "POST")
    (hp : req.path = jsOrString env.WEBHOOK_PATH "/webhook")
    (hs : secretRejects env req = false)
    (hb : req.body = some update)
    (hcid : jsTruthy (jGet (jGet (jGet update "message") "chat") "id") = true)
    (htext : jGet (jGet update "message") "text" = .jstr textS)
    (hkey : (env.OPENAI_API_KEY == "") = false)
    (h1 : (jsTrim textS == "/start") = false)
    (h2 : (jsTrim textS == "/help") = false)
    (h3 : (jsTrim textS == "/quota") = false)
    (h4 : strStartsWith (jsTrim textS) "/quota " = false)
    (h5 : (jsTrim textS == "/settings") = false)
    (h6 : strStartsWith (jsTrim textS) "/settings_tone" = true)
    (ht : toneFromString (strToLower ((splitWs (jsTrim textS)).getD 1 "")) = some t) :
    loadUserSettings (storeGet (workerFetch env req clock up tgOk store).store
      (settingsKeyOf (jGet (jGet (jGet update "message") "chat") "id"))) = ⟨t⟩ ∧
    (workerFetch env req clock up tgOk store).status = 200 ∧
    (workerFetch env req clock up tgOk store).body = "tone updated" := by
  rw [workerFetch_pipeline env req clock up tgOk store update textS hm hp hs hb hcid htext hkey,
      handleMessage_tone_valid env clock up tgOk store _ textS t h1 h2 h3 h4 h5 h6 ht]
  refine ⟨?_, rfl, rfl⟩
  show loadUserSettings (storeGet (storePut store _ (saveUserSettingsValue ⟨t⟩)) _) = ⟨t⟩
  rw [storeGet_storePut_self]
  exact loadUserSettings_save_roundtrip t

/-- C6: processing `/settings_tone <tone>` for any tone in the closed set
`{formal, friendly, technical}` stores it, and reading the chat's settings
afterwards returns exactly that tone (round trip); a missing or
out-of-set argument sends the usage hint and performs no write, leaving
the store untouched. -/
theorem settings_tone_roundtrip :
    (∀ (t : Tone) (env : Env) (req : WebRequest) (clock : Clock) (up : UpstreamOutcome)
      (tgOk : Nat → Bool) (store : Store) (update : JVal),
      req.method = "POST" →
      req.path = jsOrString env.WEBHOOK_PATH "/webhook" →
      secretRejects env req = false →
      req.body = some update →
      jsTruthy (jGet (jGet (jGet update "message") "chat") "id") = true →
      jGet (jGet update "message") "text" = .jstr ("/settings_tone " ++ t.toStr) →
      (env.OPENAI_API_KEY == "") = false →
      loadUserSettings (storeGet (workerFetch env req clock up tgOk store).store
        (settingsKeyOf (jGet (jGet (jGet update "message") "chat") "id"))) = ⟨t⟩ ∧
      (workerFetch env req clock up tgOk store).status = 200 ∧
      (workerFetch env req clock up tgOk store).body = "tone updated") ∧
    (∀ (env : Env) (req : WebRequest) (clock : Clock) (up : UpstreamOutcome)
      (tgOk : Nat → Bool) (store : Store) (update : JVal) (textS : String),
      req.method = "POST" →
      req.path = jsOrString env.WEBHOOK_PATH "/webhook" →
      secretRejects env req = false →
      req.body = some update →
      jsTruthy (jGet (jGet (jGet update "message") "chat") "id") = true →
      jGet (jGet update "message") "text" = .jstr textS →
      (env.OPENAI_API_KEY == "") = false →
      (jsTrim textS == "/start") = false →
      (jsTrim textS == "/help") = false →
      (jsTrim textS == "/quota") = false →
      strStartsWith (jsTrim textS) "/quota " = false →
      (jsTrim textS == "/settings") = false →
      strStartsWith (jsTrim textS) "/settings_tone" = true →
      toneFromString (strToLower ((splitWs (jsTrim textS)).getD 1 "")) = none →
      workerFetch env req clock up tgOk store =
        { status := 200, body := "invalid tone", store := store,
          effects := [Effect.kvGet (quotaKeyOf (jGet (jGet (jGet update "message") "chat") "id")
                        clock.currentDay),
                      Effect.kvGet (settingsKeyOf (jGet (jGet (jGet update "message") "chat") "id"))]
            ++ (chunksOf toneUsageHint).map
                (Effect.telegramSend (jGet (jGet (jGet update "message") "chat") "id")) }) := by
  constructor
  · intro t env req clock up tgOk store update hm hp hs hb hcid htext hkey
    cases t with
    | friendly =>
      exact settings_tone_valid_general env req clock up tgOk store update _ Tone.friendly
        hm hp hs hb hcid htext hkey (by decide) (by decide) (by decide) (by decide) (by decide)
        (by decide) (by decide)
    | formal =>
      exact settings_tone_valid_general env req clock up tgOk store update _ Tone.formal
        hm hp hs hb hcid htext hkey (by decide) (by decide) (by decide) (by decide) (by decide)
        (by decide) (by decide)
    | technical =>
      exact settings_tone_valid_general env req clock up tgOk store update _ Tone.technical
        hm hp hs hb hcid htext hkey (by decide) (by decide) (by decide) (by decide) (by decide)
        (by decide) (by decide)
  · intro env req clock up tgOk store update textS hm hp hs hb hcid htext hkey h1 h2 h3 h4 h5 h6 ht
    rw [workerFetch_pipeline env req clock up tgOk store update textS hm hp hs hb hcid htext hkey,
        handleMessage_tone_invalid env clock up tgOk store _ textS h1 h2 h3 h4 h5 h6 ht]
    rw [sendTelegramText_fst]

/-- C6 witness: `/settings_tone technical` round-trips for chat 42, and
`/settings_tone loud` writes nothing and keeps the store unchanged. -/
theorem settings_tone_witness :
    loadUserSettings (storeGet (workerFetch envW
        (reqW (some (updW (.jnum 42) (.jstr "/settings_tone technical")))) clockW upOkW tgOkW
        []).store (settingsKeyOf (.jnum 42))) = ⟨Tone.technical⟩ ∧
    (workerFetch envW (reqW (some (updW (.jnum 42) (.jstr "/settings_tone loud")))) clockW upOkW
        tgOkW [("settings:42", "\x7b\"tone\":\"formal\"\x7d")]).store =
      [("settings:42", "\x7b\"tone\":\"formal\"\x7d")] ∧
    (workerFetch envW (reqW (some (updW (.jnum 42) (.jstr "/settings_tone loud")))) clockW upOkW
        tgOkW [("settings:42", "\x7b\"tone\":\"formal\"\x7d")]).body = "invalid tone" := by
  have ha := (settings_tone_roundtrip.1 Tone.technical envW
    (reqW (some (updW (.jnum 42) (.jstr "/settings_tone technical")))) clockW upOkW tgOkW
    [] (updW (.jnum 42) (.jstr "/settings_tone technical")) rfl rfl rfl rfl rfl rfl rfl).1
  have hb := settings_tone_roundtrip.2 envW
    (reqW (some (updW (.jnum 42) (.jstr "/settings_tone loud")))) clockW upOkW tgOkW
    [("settings:42", "\x7b\"tone\":\"formal\"\x7d")]
    (updW (.jnum 42) (.jstr "/settings_tone loud")) "/settings_tone loud"
    rfl rfl rfl rfl rfl rfl rfl (by decide) (by decide) (by decide) (by decide) (by decide)
    (by decide) (by decide)
  exact ⟨ha, by rw [hb], by rw [hb]⟩

theorem handleMessage_status (env : Env) (clock : Clock) (up : UpstreamOutcome)
    (tgOk : Nat → Bool) (store : Store) (chatId : JVal) (textS : String) :
    (handleMessage env clock up tgOk store chatId textS).status = 200 ∨
    (handleMessage env clock up tgOk store chatId textS).status = 502 := by
  simp only [handleMessage]
  repeat' split
  all_goals first
    | exact Or.inl rfl
    | exact Or.inr rfl

theorem handleMessage_store_shape (env : Env) (clock : Clock) (up : UpstreamOutcome)
    (tgOk : Nat → Bool) (store : Store) (chatId : JVal) (textS : String) :
    (handleMessage env clock up tgOk store chatId textS).store = store ∨
    (∃ v, (handleMessage env clock up tgOk store chatId textS).store =
      storePut store (quotaKeyOf chatId clock.currentDay) v) ∨
    (∃ v, (handleMessage env clock up tgOk store chatId textS).store =
      storePut store (settingsKeyOf chatId) v) := by
  simp only [handleMessage]
  repeat' split
  all_goals first
    | exact Or.inl rfl
    | exact Or.inr (Or.inl ⟨_, rfl⟩)
    | exact Or.inr (Or.inr ⟨_, rfl⟩)

/-- C4 (amended): provided the OpenAI API key binding is configured
(non-empty), every webhook request that parses and passes the secret
check is answered 200 after normal handling, with a 502 bad-gateway reply
as the only other reachable status (produced when the pipeline throws);
with the key missing, a 500 is returned instead (see the
counterexample). -/
theorem webhook_status_200_or_502 (env : Env) (req : WebRequest) (clock : Clock)
    (up : UpstreamOutcome) (tgOk : Nat → Bool) (store : Store) (update : JVal)
    (hm : req.method = "POST")
    (hp : req.path = jsOrString env.WEBHOOK_PATH "/webhook")
    (hs : secretRejects env req = false)
    (hb : req.body = some update)
    (hkey : (env.OPENAI_API_KEY == "") = false) :
    (workerFetch env req clock up tgOk store).status = 200 ∨
    (workerFetch env req clock up tgOk store).status = 502 := by
  unfold workerFetch
  repeat' split
  all_goals first
    | exact Or.inl rfl
    | exact handleMessage_status _ _ _ _ _ _ _
    | simp_all

/-- C4 counterexample: with the API key binding empty, a parsed and
authenticated request with a valid chat/text reaches a 500 status, which
is neither the success status nor the bad-gateway status the claim
allows. -/
theorem webhook_status_counterexample :
    (workerFetch envNoKey (reqW (some (updW (.jnum 42) (.jstr "hello")))) clockW upOkW tgOkW
      []).status = 500 ∧
    (500 : Nat) ≠ 200 ∧ (500 : Nat) ≠ 502 := by
  refine ⟨rfl, by decide, by decide⟩

/-- C4 witness: a plain in-quota message is answered 200; the same
request with a failing upstream is answered 502 — both in the allowed
set. -/
theorem webhook_status_witness :
    ((workerFetch envW (reqW (some (updW (.jnum 42) (.jstr "hello")))) clockW upOkW tgOkW
        []).status = 200 ∨
     (workerFetch envW (reqW (some (updW (.jnum 42) (.jstr "hello")))) clockW upOkW tgOkW
        []).status = 502) ∧
    ((workerFetch envW (reqW (some (updW (.jnum 42) (.jstr "hello")))) clockW upErrW tgOkW
        []).status = 200 ∨
     (workerFetch envW (reqW (some (updW (.jnum 42) (.jstr "hello")))) clockW upErrW tgOkW
        []).status = 502) :=
  ⟨webhook_status_200_or_502 envW (reqW (some (updW (.jnum 42) (.jstr "hello")))) clockW upOkW
      tgOkW [] (updW (.jnum 42) (.jstr "hello")) rfl rfl rfl rfl rfl,
   webhook_status_200_or_502 envW (reqW (some (updW (.jnum 42) (.jstr "hello")))) clockW upErrW
      tgOkW [] (updW (.jnum 42) (.jstr "hello")) rfl rfl rfl rfl rfl⟩

theorem handleMessage_main_effects (env : Env) (clock : Clock) (up : UpstreamOutcome)
    (tgOk : Nat → Bool) (store : Store) (chatId : JVal) (textS : String)
    (h1 : (jsTrim textS == "/start") = false)
    (h2 : (jsTrim textS == "/help") = false)
    (h3 : (jsTrim textS == "/quota") = false)
    (h4 : strStartsWith (jsTrim textS) "/quota " = false)
    (h5 : (jsTrim textS == "/settings") = false)
    (h6 : strStartsWith (jsTrim textS) "/settings_tone" = false)
    (hq : ¬ DAILY_QUOTA ≤ existingCountOf (storeGet store (quotaKeyOf chatId clock.currentDay))) :
    ∃ rest, (handleMessage env clock up tgOk store chatId textS).effects =
      [Effect.kvGet (quotaKeyOf chatId clock.currentDay),
       Effect.kvGet (settingsKeyOf chatId),
       Effect.kvPut (quotaKeyOf chatId clock.currentDay)
         (toString (existingCountOf (storeGet store (quotaKeyOf chatId clock.currentDay)) + 1))
         (some (ttlSecondsUntilTomorrow clock.msUntilMidnight)),
       Effect.openaiCall (invokeOpenAI env (promptOf textS)
         (loadUserSettings (storeGet store (settingsKeyOf chatId))).tone up).1] ++ rest := by
  cases hres : (invokeOpenAI env (promptOf textS)
      (loadUserSettings (storeGet store (settingsKeyOf chatId))).tone up).2 with
  | ok r =>
    rw [handleMessage_main_ok env clock up tgOk store chatId textS r h1 h2 h3 h4 h5 h6 hq hres]
    exact ⟨_, rfl⟩
  | error e =>
    rw [handleMessage_main_err env clock up tgOk store chatId textS e h1 h2 h3 h4 h5 h6 hq hres]
    exact ⟨_, rfl⟩

/-- C8: for every admitted non-command (or `/debug`) message, the quota
counter for `(chatId, day)` is written back incremented *before* the
upstream completion call (the `kvPut` strictly precedes the `openaiCall`
in the effect trace, with no other effect than the two reads before
them); and when the completion call fails, the increment is not rolled
back — the final store still holds the incremented counter while the
request ends 502. -/
theorem quota_increment_before_completion (env : Env) (req : WebRequest) (clock : Clock)
    (up : UpstreamOutcome) (tgOk : Nat → Bool) (store : Store) (update : JVal) (textS : String)
    (hm : req.method = "POST")
    (hp : req.path = jsOrString env.WEBHOOK_PATH "/webhook")
    (hs : secretRejects env req = false)
    (hb : req.body = some update)
    (hcid : jsTruthy (jGet (jGet (jGet update "message") "chat") "id") = true)
    (htext : jGet (jGet update "message") "text" = .jstr textS)
    (hkey : (env.OPENAI_API_KEY == "") = false)
    (h1 : (jsTrim textS == "/start") = false)
    (h2 : (jsTrim textS == "/help") = false)
    (h3 : (jsTrim textS == "/quota") = false)
    (h4 : strStartsWith (jsTrim textS) "/quota " = false)
    (h5 : (jsTrim textS == "/settings") = false)
    (h6 : strStartsWith (jsTrim textS) "/settings_tone" = false)
    (hq : ¬ DAILY_QUOTA ≤ existingCountOf (storeGet store
      (quotaKeyOf (jGet (jGet (jGet update "message") "chat") "id") clock.currentDay))) :
    (∃ rest, (workerFetch env req clock up tgOk store).effects =
      [Effect.kvGet (quotaKeyOf (jGet (jGet (jGet update "message") "chat") "id") clock.currentDay),
       Effect.kvGet (settingsKeyOf (jGet (jGet (jGet update "message") "chat") "id")),
       Effect.kvPut (quotaKeyOf (jGet (jGet (jGet update "message") "chat") "id") clock.currentDay)
         (toString (existingCountOf (storeGet store
           (quotaKeyOf (jGet (jGet (jGet update "message") "chat") "id") clock.currentDay)) + 1))
         (some (ttlSecondsUntilTomorrow clock.msUntilMidnight)),
       Effect.openaiCall (invokeOpenAI env (promptOf textS)
         (loadUserSettings (storeGet store
           (settingsKeyOf (jGet (jGet (jGet update "message") "chat") "id")))).tone up).1]
      ++ rest) ∧
    (∀ e, (invokeOpenAI env (promptOf textS)
        (loadUserSettings (storeGet store
          (settingsKeyOf (jGet (jGet (jGet update "message") "chat") "id")))).tone up).2 =
          .error e →
      storeGet (workerFetch env req clock up tgOk store).store
          (quotaKeyOf (jGet (jGet (jGet update "message") "chat") "id") clock.currentDay) =
        some (toString (existingCountOf (storeGet store
          (quotaKeyOf (jGet (jGet (jGet update "message") "chat") "id") clock.currentDay)) + 1)) ∧
      (workerFetch env req clock up tgOk store).status = 502) := by
  rw [workerFetch_pipeline env req clock up tgOk store update textS hm hp hs hb hcid htext hkey]
  constructor
  · exact handleMessage_main_effects env clock up tgOk store _ textS h1 h2 h3 h4 h5 h6 hq
  · intro e hfail
    rw [handleMessage_main_err env clock up tgOk store _ textS e h1 h2 h3 h4 h5 h6 hq hfail]
    exact ⟨storeGet_storePut_self _ _ _, rfl⟩

/-- C8 witness: a `/debug ping` message (store empty, upstream failing
with 429) writes the counter `1` before the call and keeps it after the
failure, ending 502. -/
theorem quota_increment_witness :
    storeGet (workerFetch envW (reqW (some (updW (.jnum 42) (.jstr "/debug ping")))) clockW
        upErrW tgOkW []).store (quotaKeyOf (.jnum 42) clockW.currentDay) = some "1" ∧
    (workerFetch envW (reqW (some (updW (.jnum 42) (.jstr "/debug ping")))) clockW upErrW tgOkW
        []).status = 502 := by
  have h := quota_increment_before_completion envW
    (reqW (some (updW (.jnum 42) (.jstr "/debug ping")))) clockW upErrW tgOkW []
    (updW (.jnum 42) (.jstr "/debug ping")) "/debug ping"
    rfl rfl rfl rfl rfl rfl rfl
    (by decide) (by decide) (by decide) (by decide) (by decide) (by decide) (by decide)
  have h2 := h.2 "OpenAI request failed (429): quota exceeded" rfl
  exact ⟨h2.1.trans (by decide), h2.2⟩

/-- C3 (amended): on every non-success upstream HTTP status the
completion operation *throws* (it does not substitute a canned answer
itself); the gateway's catch then delivers the single canned
connectivity-failure message — the same string for rate exhaustion as
for any other failure — and replies 502. -/
theorem upstream_error_throws_and_502 :
    (∀ (env : Env) (prompt : String) (tone : Tone) (status : Nat) (bodyText : String)
        (json? : Option JVal), ¬ statusOk status →
      (invokeOpenAI env prompt tone (.response status bodyText json?)).2 =
        .error ("OpenAI request failed (" ++ toString status ++ "): " ++ bodyText)) ∧
    (∀ (env : Env) (req : WebRequest) (clock : Clock) (tgOk : Nat → Bool) (store : Store)
        (update : JVal) (textS : String) (status : Nat) (bodyText : String)
        (json? : Option JVal),
      req.method = "POST" →
      req.path = jsOrString env.WEBHOOK_PATH "/webhook" →
      secretRejects env req = false →
      req.body = some update →
      jsTruthy (jGet (jGet (jGet update "message") "chat") "id") = true →
      jGet (jGet update "message") "text" = .jstr textS →
      (env.OPENAI_API_KEY == "") = false →
      (jsTrim textS == "/start") = false →
      (jsTrim textS == "/help") = false →
      (jsTrim textS == "/quota") = false →
      strStartsWith (jsTrim textS) "/quota " = false →
      (jsTrim textS == "/settings") = false →
      strStartsWith (jsTrim textS) "/settings_tone" = false →
      ¬ DAILY_QUOTA ≤ existingCountOf (storeGet store
        (quotaKeyOf (jGet (jGet (jGet update "message") "chat") "id") clock.currentDay)) →
      ¬ statusOk status →
      (workerFetch env req clock (.response status bodyText json?) tgOk store).status = 502 ∧
      ∃ pre, (workerFetch env req clock (.response status bodyText json?) tgOk store).effects =
        pre ++ (chunksOf openaiFailText).map
          (Effect.telegramSend (jGet (jGet (jGet update "message") "chat") "id"))) := by
  have hthrow : ∀ (env : Env) (prompt : String) (tone : Tone) (status : Nat) (bodyText : String)
      (json? : Option JVal), ¬ statusOk status →
      (invokeOpenAI env prompt tone (.response status bodyText json?)).2 =
        .error ("OpenAI request failed (" ++ toString status ++ "): " ++ bodyText) := by
    intro env prompt tone status bodyText json? hns
    unfold invokeOpenAI
    simp only [if_neg hns]
  refine ⟨hthrow, ?_⟩
  intro env req clock tgOk store update textS status bodyText json?
    hm hp hs hb hcid htext hkey h1 h2 h3 h4 h5 h6 hq hns
  rw [workerFetch_pipeline env req clock (.response status bodyText json?) tgOk store update textS
        hm hp hs hb hcid htext hkey,
      handleMessage_main_err env clock (.response status bodyText json?) tgOk store _ textS _
        h1 h2 h3 h4 h5 h6 hq (hthrow env (promptOf textS) _ status bodyText json? hns)]
  refine ⟨rfl, ?_⟩
  rw [sendTelegramText_fst]
  exact ⟨_, rfl⟩

/-- C3 counterexample: on HTTP 500 (and on 429) `invokeOpenAI` raises a
thrown error past itself instead of returning a `CompletionResult`
carrying a canned answer. -/
theorem upstream_error_counterexample :
    (invokeOpenAI envW "hi" Tone.friendly (.response 500 "boom" none)).2 =
      .error "OpenAI request failed (500): boom" ∧
    (invokeOpenAI envW "hi" Tone.friendly upErrW).2 =
      .error "OpenAI request failed (429): quota exceeded" := by
  exact ⟨rfl, rfl⟩

/-- C3 witness: a concrete 500 response throws with the status in the
message, and a concrete in-quota request against a 429 upstream ends 502
after delivering the canned failure text. -/
theorem upstream_error_witness :
    (invokeOpenAI envW "hello" Tone.formal (.response 503 "down" none)).2 =
      .error ("OpenAI request failed (" ++ toString 503 ++ "): " ++ "down") ∧
    (workerFetch envW (reqW (some (updW (.jnum 7) (.jstr "hi bot")))) clockW
      (.response 429 "quota exceeded" none) tgOkW []).status = 502 := by
  have h := upstream_error_throws_and_502
  refine ⟨h.1 envW "hello" Tone.formal 503 "down" none (by decide), ?_⟩
  exact (h.2 envW (reqW (some (updW (.jnum 7) (.jstr "hi bot")))) clockW tgOkW []
    (updW (.jnum 7) (.jstr "hi bot")) "hi bot" 429 "quota exceeded" none
    rfl rfl rfl rfl rfl rfl rfl
    (by decide) (by decide) (by decide) (by decide) (by decide) (by decide) (by decide)
    (by decide)).1

theorem filter_openaiCall_sends (cid : JVal) (msg : String) :
    ((chunksOf msg).map (Effect.telegramSend cid)).filter isOpenaiCallEff = [] := by
  induction chunksOf msg with
  | nil => rfl
  | cons c cs ih => simp [List.map_cons, List.filter_cons, isOpenaiCallEff, ih]

/-- C1 (amended): the worker maintains no backoff state at all — no
invocation ever writes the `openai:quota:block-until` key (a completion
failure with a resource-exhaustion status included), and every admitted
non-command update makes exactly one upstream completion call regardless
of the store contents, hence regardless of any earlier failure. -/
theorem no_backoff_gate_upstream_always_called :
    (∀ (env : Env) (req : WebRequest) (clock : Clock) (up : UpstreamOutcome)
        (tgOk : Nat → Bool) (store : Store),
      storeGet (workerFetch env req clock up tgOk store).store "openai:quota:block-until" =
        storeGet store "openai:quota:block-until") ∧
    (∀ (env : Env) (req : WebRequest) (clock : Clock) (up : UpstreamOutcome)
        (tgOk : Nat → Bool) (store : Store) (update : JVal) (textS : String),
      req.method = "POST" →
      req.path = jsOrString env.WEBHOOK_PATH "/webhook" →
      secretRejects env req = false →
      req.body = some update →
      jsTruthy (jGet (jGet (jGet update "message") "chat") "id") = true →
      jGet (jGet update "message") "text" = .jstr textS →
      (env.OPENAI_API_KEY == "") = false →
      (jsTrim textS == "/start") = false →
      (jsTrim textS == "/help") = false →
      (jsTrim textS == "/quota") = false →
      strStartsWith (jsTrim textS) "/quota " = false →
      (jsTrim textS == "/settings") = false →
      strStartsWith (jsTrim textS) "/settings_tone" = false →
      ¬ DAILY_QUOTA ≤ existingCountOf (storeGet store
        (quotaKeyOf (jGet (jGet (jGet update "message") "chat") "id") clock.currentDay)) →
      (workerFetch env req clock up tgOk store).effects.filter isOpenaiCallEff =
        [Effect.openaiCall (invokeOpenAI env (promptOf textS)
          (loadUserSettings (storeGet store
            (settingsKeyOf (jGet (jGet (jGet update "message") "chat") "id")))).tone up).1]) := by
  constructor
  · intro env req clock up tgOk store
    have hh : ∀ (chatId : JVal) (textS : String),
        storeGet (handleMessage env clock up tgOk store chatId textS).store
          "openai:quota:block-until" = storeGet store "openai:quota:block-until" := by
      intro chatId textS
      rcases handleMessage_store_shape env clock up tgOk store chatId textS with h | ⟨v, h⟩ | ⟨v, h⟩
      · rw [h]
      · rw [h, storeGet_storePut_ne _ _ _ _ (quotaKey_ne chatId clock.currentDay)]
      · rw [h, storeGet_storePut_ne _ _ _ _ (settingsKey_ne chatId)]
    unfold workerFetch
    repeat' split
    all_goals first
      | rfl
      | exact hh _ _
  · intro env req clock up tgOk store update textS hm hp hs hb hcid htext hkey h1 h2 h3 h4 h5 h6 hq
    rw [workerFetch_pipeline env req clock up tgOk store update textS hm hp hs hb hcid htext hkey]
    cases hres : (invokeOpenAI env (promptOf textS)
        (loadUserSettings (storeGet store
          (settingsKeyOf (jGet (jGet (jGet update "message") "chat") "id")))).tone up).2 with
    | ok r =>
      rw [handleMessage_main_ok env clock up tgOk store _ textS r h1 h2 h3 h4 h5 h6 hq hres]
      simp [List.filter_append, sendTelegramText_fst, filter_openaiCall_sends,
        List.filter_cons, isOpenaiCallEff]
    | error e =>
      rw [handleMessage_main_err env clock up tgOk store _ textS e h1 h2 h3 h4 h5 h6 hq hres]
      simp [List.filter_append, sendTelegramText_fst, filter_openaiCall_sends,
        List.filter_cons, isOpenaiCallEff]

/-- C1 counterexample: after a completion call fails with the
resource-exhaustion status 429, no block-until value exists in the store,
and the immediately following update (same store, still inside any
would-be cooldown) performs an upstream completion call anyway. -/
theorem backoff_blockUntil_counterexample :
    storeGet (workerFetch envW (reqW (some (updW (.jnum 42) (.jstr "hello")))) clockW upErrW
        tgOkW []).store "openai:quota:block-until" = none ∧
    ((workerFetch envW (reqW (some (updW (.jnum 42) (.jstr "hello")))) clockW upErrW tgOkW
        (workerFetch envW (reqW (some (updW (.jnum 42) (.jstr "hello")))) clockW upErrW tgOkW
          []).store).effects.filter isOpenaiCallEff).length = 1 := by
  exact ⟨rfl, by decide⟩

/-- C1 witness: a failed-upstream invocation leaves no backoff key, and
an admitted update with a prior count already recorded still makes
exactly one completion call. -/
theorem no_backoff_gate_witness :
    storeGet (workerFetch envW (reqW (some (updW (.jnum 9) (.jstr "hola")))) clockW upErrW tgOkW
        []).store "openai:quota:block-until" = none ∧
    ((workerFetch envW (reqW (some (updW (.jnum 9) (.jstr "hola")))) clockW upErrW tgOkW
        [("quota:9:2026-10-11", "2")]).effects.filter isOpenaiCallEff).length = 1 := by
  have h := no_backoff_gate_upstream_always_called
  constructor
  · rw [h.1 envW (reqW (some (updW (.jnum 9) (.jstr "hola")))) clockW upErrW tgOkW []]
    rfl
  · rw [h.2 envW (reqW (some (updW (.jnum 9) (.jstr "hola")))) clockW upErrW tgOkW
      [("quota:9:2026-10-11", "2")] (updW (.jnum 9) (.jstr "hola")) "hola"
      rfl rfl rfl rfl rfl rfl rfl
      (by decide) (by decide) (by decide) (by decide) (by decide) (by decide) (by decide)]
    rfl

/-- C7 (amended): for every prompt and tone, the upstream request body
carries exactly the fields `model` and `input` — the input list being the
tone-adapted system instruction (the fixed preamble plus one of three
canned tone strings) followed by the user prompt as `input_text` content —
and **no** `max_output_tokens` field: the source imposes no output-length
ceiling. -/
theorem openai_request_body_spec :
    ∀ (env : Env) (prompt : String) (tone : Tone) (up : UpstreamOutcome),
      (invokeOpenAI env prompt tone up).1 = openaiRequestBody env prompt tone ∧
      jGet (openaiRequestBody env prompt tone) "model" = .jstr (modelOf env) ∧
      jGet (openaiRequestBody env prompt tone) "input" =
        .jarr [.jobj [("role", .jstr "system"),
                      ("content", .jarr [.jobj [("type", .jstr "input_text"),
                        ("text", .jstr ("You are a helpful AI assistant replying in the same language the user used. "
                          ++ toneSystemInstruction tone))]])],
               .jobj [("role", .jstr "user"),
                      ("content", .jarr [.jobj [("type", .jstr "input_text"),
                        ("text", .jstr prompt)]])]] ∧
      toneSystemInstruction tone ∈
        ["Use a respectful and formal tone with structured explanations.",
         "Use precise technical terminology and provide detailed, step-by-step explanations.",
         "Be friendly, encouraging, and easy to understand."] ∧
      jFields (openaiRequestBody env prompt tone) = ["model", "input"] ∧
      "max_output_tokens" ∉ jFields (openaiRequestBody env prompt tone) := by
  intro env prompt tone up
  refine ⟨rfl, rfl, rfl, ?_, rfl, ?_⟩
  · cases tone <;> simp [toneSystemInstruction]
  · intro hcon
    rw [show jFields (openaiRequestBody env prompt tone) = ["model", "input"] from rfl] at hcon
    simp at hcon

/-- C7 counterexample: the request body built for a concrete prompt and
tone has only the fields `model` and `input`; it contains no
`max_output_tokens` member, contradicting the claimed bounded
output-length ceiling. -/
theorem openai_request_body_counterexample :
    jFields (openaiRequestBody envW "hi" Tone.friendly) = ["model", "input"] ∧
    "max_output_tokens" ∉ jFields (openaiRequestBody envW "hi" Tone.friendly) ∧
    jGet (openaiRequestBody envW "hi" Tone.friendly) "max_output_tokens" = .jnull := by
  exact ⟨rfl, by decide, rfl⟩

/-- C7 witness: concrete prompt and tone — the model field is the default
model, the system instruction is the technical canned string, and no
`max_output_tokens` field exists. -/
theorem openai_request_body_witness :
    jGet (openaiRequestBody envW "ping" Tone.technical) "model" = .jstr "gpt-4o-mini" ∧
    toneSystemInstruction Tone.technical ∈
      ["Use a respectful and formal tone with structured explanations.",
       "Use precise technical terminology and provide detailed, step-by-step explanations.",
       "Be friendly, encouraging, and easy to understand."] ∧
    "max_output_tokens" ∉ jFields (openaiRequestBody envW "ping" Tone.technical) := by
  have h := openai_request_body_spec envW "ping" Tone.technical upOkW
  exact ⟨h.2.1, h.2.2.2.1, h.2.2.2.2.2⟩
